import Mathlib

/-!
Verification of the LaymanDB backend's natural-language-to-schema pipeline
(`src/controllers/schema.controller.js`, `src/services/schemaGenerator.service.js`,
`src/services/mermaidGenerator.service.js`).

The JavaScript code is embedded shallowly: strings are Lean `String`s, the
specific JavaScript regular expressions used by the code are transcribed into a
small executable matcher (`Rx`) implementing the exact ECMAScript semantics the
code relies on (leftmost match, ordered alternation, greedy and lazy
quantifiers over character classes, capture groups, global replace / exec /
match / test, multiline anchors), and each JavaScript function becomes a Lean
function of the same name, translated statement by statement.
-/

/-! ## JavaScript string primitives -/

namespace Js

/-- ECMAScript `\w`: ASCII letters, digits and underscore. -/
def wordChar (c : Char) : Bool :=
  (('a' ≤ c && c ≤ 'z') || ('A' ≤ c && c ≤ 'Z') || ('0' ≤ c && c ≤ '9') || c = '_')

/-- ECMAScript `\s` restricted to the ASCII whitespace the inputs use. -/
def spaceChar (c : Char) : Bool :=
  (c = ' ' || c = '\t' || c = '\n' || c = '\x0d' || c = '\x0b' || c = '\x0c')

/-- ASCII lower-casing, as `String.prototype.toLowerCase` acts on ASCII. -/
def lowerChar (c : Char) : Char :=
  if 'A' ≤ c && c ≤ 'Z' then Char.ofNat (c.toNat + 32) else c

/-- ASCII upper-casing, as `String.prototype.toUpperCase` acts on ASCII. -/
def upperChar (c : Char) : Char :=
  if 'a' ≤ c && c ≤ 'z' then Char.ofNat (c.toNat - 32) else c

def toLower (s : String) : String := String.mk (s.data.map lowerChar)

def toUpper (s : String) : String := String.mk (s.data.map upperChar)

/-- `String.prototype.trim` on the ASCII whitespace the inputs use. -/
def trimL : List Char → List Char
  | [] => []
  | c :: r => if spaceChar c then trimL r else c :: r

def trim (s : String) : String :=
  String.mk ((trimL (trimL s.data.reverse).reverse))

/-- `String.prototype.includes`. -/
def includesL (h n : List Char) : Bool :=
  let rec go : List Char → Bool
    | [] => n.isEmpty
    | c :: r => if n.isPrefixOf (c :: r) then true else go r
  go h

def includes (hay needle : String) : Bool := includesL hay.data needle.data

/-- `String.prototype.startsWith`. -/
def startsWith (s pre : String) : Bool := pre.data.isPrefixOf s.data

/-- `String.prototype.endsWith`. -/
def endsWith (s suf : String) : Bool := suf.data.isSuffixOf s.data

/-- `String.prototype.slice(0, -n)`. -/
def dropRight (s : String) (n : Nat) : String := String.mk (s.data.take (s.data.length - n))

/-- `String.prototype.split` with a plain one-character separator. -/
def splitChar (sep : Char) (s : String) : List String :=
  let rec go (cur : List Char) : List Char → List (List Char)
    | [] => [cur.reverse]
    | c :: r => if c = sep then cur.reverse :: go [] r else go (c :: cur) r
  (go [] s.data).map String.mk

/-- `Array.prototype.join` with a one-character separator. -/
def joinChar (sep : Char) : List String → String
  | [] => ""
  | [x] => x
  | x :: r => x ++ String.mk [sep] ++ joinChar sep r

/-- JavaScript truthiness of a possibly absent string (`undefined` and `""`
are falsy). -/
def truthy : Option String → Bool
  | none => false
  | some s => !s.isEmpty

/-- Decimal rendering of a `Nat`, as JavaScript renders the integers the code
interpolates into messages. -/
def num (n : Nat) : String := toString n

end Js

/-! ## The regular-expression matcher

Only the constructs appearing in the transcribed patterns are supported:
character classes, literal runs, ordered alternation, optional groups, greedy
`*`/`+` and lazy `+?` over a character class, capture groups, `^`/`$` (with
and without the `m` flag) and word boundaries.  Matching is exact ECMAScript
backtracking: alternatives are tried left to right, greedy quantifiers give
back characters from the longest run, lazy ones extend from the shortest. -/

namespace Rx

inductive RE where
  | eps
  | cls (p : Char → Bool)
  | str (s : List Char)
  | cat (a b : RE)
  | alt (a b : RE)
  | starG (p : Char → Bool)
  | plusG (p : Char → Bool)
  | plusL (p : Char → Bool)
  | opt (a : RE)
  | grp (i : Nat) (a : RE)
  | bol (m : Bool)
  | eol (m : Bool)
  | wb

/-- Latest-wins capture store. -/
abbrev Caps := List (Nat × List Char)

def Caps.record (i : Nat) (v : List Char) (cp : Caps) : Caps := (i, v) :: cp

def Caps.lookup (cp : Caps) (i : Nat) : Option (List Char) :=
  match cp with
  | [] => none
  | (j, v) :: r => if j = i then some v else Caps.lookup r i

/-- Greedy class star: consume as many `p`-characters as possible, backtracking
one at a time into the continuation `k` (which receives the rest of the input
and the character just before it). -/
def starGo (p : Char → Bool) (k : List Char → Option Char → Caps → Option α) :
    List Char → Option Char → Caps → Option α
  | [], pr, cp => k [] pr cp
  | c :: r, pr, cp =>
    if p c then
      match starGo p k r (some c) cp with
      | some v => some v
      | none => k (c :: r) pr cp
    else k (c :: r) pr cp

/-- Lazy class star: try the continuation first, extend on failure. -/
def starLGo (p : Char → Bool) (k : List Char → Option Char → Caps → Option α) :
    List Char → Option Char → Caps → Option α
  | [], pr, cp => k [] pr cp
  | c :: r, pr, cp =>
    match k (c :: r) pr cp with
    | some v => some v
    | none => if p c then starLGo p k r (some c) cp else none

/-- Case folding used when the `i` flag is set. -/
def fold (ci : Bool) (c : Char) : Char := if ci then Js.lowerChar c else c

def strGo (ci : Bool) (l : List Char) (k : List Char → Option Char → Caps → Option α) :
    List Char → Option Char → Caps → Option α
  | s, pr, cp =>
    match l, s with
    | [], _ => k s pr cp
    | _ :: _, [] => none
    | x :: xs, c :: r => if fold ci x = fold ci c then strGo ci xs k r (some c) cp else none

/-- The backtracking matcher in continuation style.  `pr` is the character just
before the current position (`none` at the start of the subject). -/
def mat (ci : Bool) : RE → List Char → Option Char → Caps →
    (List Char → Option Char → Caps → Option α) → Option α
  | .eps, s, pr, cp, k => k s pr cp
  | .cls p, s, _, cp, k =>
    match s with
    | [] => none
    | c :: r => if p c then k r (some c) cp else none
  | .str l, s, pr, cp, k => strGo ci l k s pr cp
  | .cat a b, s, pr, cp, k =>
    mat ci a s pr cp (fun s' pr' cp' => mat ci b s' pr' cp' k)
  | .alt a b, s, pr, cp, k =>
    match mat ci a s pr cp k with
    | some v => some v
    | none => mat ci b s pr cp k
  | .starG p, s, pr, cp, k => starGo p k s pr cp
  | .plusG p, s, _, cp, k =>
    match s with
    | [] => none
    | c :: r => if p c then starGo p k r (some c) cp else none
  | .plusL p, s, _, cp, k =>
    match s with
    | [] => none
    | c :: r => if p c then starLGo p k r (some c) cp else none
  | .opt a, s, pr, cp, k =>
    match mat ci a s pr cp k with
    | some v => some v
    | none => k s pr cp
  | .grp i a, s, pr, cp, k =>
    mat ci a s pr cp
      (fun s' pr' cp' => k s' pr' (Caps.record i (s.take (s.length - s'.length)) cp'))
  | .bol m, s, pr, cp, k =>
    if pr = none || (m && pr = some '\n') then k s pr cp else none
  | .eol m, s, pr, cp, k =>
    (match s with
     | [] => k s pr cp
     | c :: _ => if m && c = '\n' then k s pr cp else none)
  | .wb, s, pr, cp, k =>
    let before := match pr with | none => false | some c => Js.wordChar c
    let after := match s with | [] => false | c :: _ => Js.wordChar c
    if before ≠ after then k s pr cp else none

/-- One match result: characters before the match, the match itself, the rest
of the subject, and the captures. -/
structure M where
  pre : List Char
  hit : List Char
  rest : List Char
  caps : Caps

/-- Leftmost match search from the current position (`pr` = preceding char). -/
def searchFrom (ci : Bool) (re : RE) : List Char → Option Char → List Char → Option M
  | s, pr, acc =>
    match mat ci re s pr [] (fun s' _ cp => some (s', cp)) with
    | some (s', cp) =>
      some { pre := acc.reverse, hit := s.take (s.length - s'.length), rest := s', caps := cp }
    | none =>
      match s with
      | [] => none
      | c :: r => searchFrom ci re r (some c) (c :: acc)

/-- First match anywhere in the subject (`regex.exec` without `g`, `test`). -/
def search (ci : Bool) (re : RE) (s : List Char) : Option M :=
  searchFrom ci re s none []

def testRe (ci : Bool) (re : RE) (s : String) : Bool := (search ci re s.data).isSome

/-- All matches, as the code's `while ((m = re.exec(text)))` loops with the `g`
flag visit them: each search resumes at the end of the previous match.  Each
match's `pre` holds the characters between the previous match (or the subject's
start) and this match.  Every transcribed pattern matches at least one
character, so the fuel `n + 1` is never exhausted. -/
def execAllGo (ci : Bool) (re : RE) : Nat → List Char → Option Char → List M
  | 0, _, _ => []
  | n + 1, s, pr =>
    match searchFrom ci re s pr [] with
    | none => []
    | some m =>
      if m.hit.isEmpty then [m]
      else
        m :: execAllGo ci re n m.rest
          (match m.hit.getLast? with | some c => some c | none => pr)

def execAll (ci : Bool) (re : RE) (s : String) : List M :=
  execAllGo ci re (s.data.length + 1) s.data none

/-- Rebuild a subject from its matches, substituting each match by `tplOf`. -/
def stitch (tplOf : M → List Char) : List M → List Char → List Char
  | [], tail => tail
  | m :: r, tail => m.pre ++ tplOf m ++ stitch tplOf r tail

/-- Replacement templates: literal pieces, `$n` capture references and `$&`. -/
inductive Tpl where
  | lit (s : String)
  | cap (i : Nat)
  | whole

def instTpl (m : M) : List Tpl → List Char
  | [] => []
  | .lit s :: r => s.data ++ instTpl m r
  | .cap i :: r => (Caps.lookup m.caps i).getD [] ++ instTpl m r
  | .whole :: r => m.hit ++ instTpl m r

/-- `String.prototype.replace` with the `g` flag and a `$n` template. -/
def replaceAll (ci : Bool) (re : RE) (tpl : List Tpl) (s : String) : String :=
  let ms := execAll ci re s
  String.mk (stitch (fun m => instTpl m tpl) ms (ms.foldl (fun _ m => m.rest) s.data))

/-- `String.prototype.replace` without the `g` flag. -/
def replaceFirst (ci : Bool) (re : RE) (tpl : List Tpl) (s : String) : String :=
  match search ci re s.data with
  | none => s
  | some m => String.mk (m.pre ++ instTpl m tpl ++ m.rest)

/-- `String.prototype.replace` with the `g` flag and a replacement function. -/
def replaceAllWith (ci : Bool) (re : RE) (f : String → String) (s : String) : String :=
  let ms := execAll ci re s
  String.mk (stitch (fun m => (f (String.mk m.hit)).data) ms
    (ms.foldl (fun _ m => m.rest) s.data))

/-- `String.prototype.match` with the `g` flag, `null` collapsed to `[]` as the
code always does (`|| []`). -/
def matchG (ci : Bool) (re : RE) (s : String) : List String :=
  (execAll ci re s).map (fun m => String.mk m.hit)

/-- `String.prototype.split` by a regular expression (used with `/\s+/` and
`/,|\band\b/`): pieces between matches, including empty leading/trailing
pieces exactly as ECMAScript produces them. -/
def splitRe (ci : Bool) (re : RE) (s : String) : List String :=
  let ms := execAll ci re s
  match ms with
  | [] => [s]
  | _ =>
    (ms.map (fun m => String.mk m.pre)) ++ [String.mk (ms.foldl (fun _ m => m.rest) s.data)]

/-- Capture `n` of the first `exec` result, `""` when absent — the code reads
`match[n]` and guards with truthiness. -/
def capOf (m : M) (i : Nat) : Option String :=
  (Caps.lookup m.caps i).map String.mk

end Rx

/-! ### Shorthand pattern combinators used in the transcriptions. -/

namespace Rx

def w : RE := .cls Js.wordChar
def wPlus : RE := .plusG Js.wordChar
def wStar : RE := .starG Js.wordChar
def sPlus : RE := .plusG Js.spaceChar
def sStar : RE := .starG Js.spaceChar
def ch (c : Char) : RE := .str [c]
def lit (s : String) : RE := .str s.data
def dot : RE := .cls (fun c => c ≠ '\n')
def seq : List RE → RE
  | [] => .eps
  | [x] => x
  | x :: r => .cat x (seq r)
def alts : List RE → RE
  | [] => .eps
  | [x] => x
  | x :: r => .alt x (alts r)

end Rx

/-! ## `src/services/mermaidGenerator.service.js` -/

namespace MG

open Rx

/-- Column shape as the Mermaid generator reads it (`column.dataType`,
`column.name`, `column.primaryKey`, `column.foreignKey`, `column.nullable`). -/
structure MColumn where
  name : String
  dataType : String
  primaryKey : Bool := false
  foreignKey : Bool := false
  nullable : Bool := false
deriving Repr, DecidableEq, Inhabited

structure MTable where
  name : String
  columns : List MColumn := []
deriving Repr, DecidableEq, Inhabited

structure MCardinality where
  source : String
  target : String
deriving Repr, DecidableEq, Inhabited

structure MRel where
  sourceEntity : String := ""
  targetEntity : String := ""
  sourceTable : String := ""
  targetTable : String := ""
  name : String := ""
  cardinality : Option MCardinality := none
  type : String := ""
deriving Repr, DecidableEq, Inhabited

structure MSchema where
  name : String := ""
  tables : List MTable
  relationships : Option (List MRel) := none
deriving Repr, DecidableEq, Inhabited

structure VResult where
  isValid : Bool
  errors : List String
deriving Repr, DecidableEq, Inhabited

/-- The cardinality glyph alternation `(\|\||\}o|o\{)` used throughout. -/
def glyph : RE := alts [lit "||", lit "\x7do", lit "o\x7b"]

/-- `.` (no `s` flag): any character but a newline. -/
def dotStar : RE := .starG (fun c => c ≠ '\n')

def re1 : RE :=
  seq [.grp 1 (seq [wPlus, sPlus, wPlus, sPlus, wPlus]), sStar, ch '\x7d', .grp 2 wPlus]

def re2 : RE := seq [ch '\x7d', sStar, .grp 1 wPlus, sStar, ch '\x7b']

def re3a : RE := seq [.grp 1 glyph, lit "\x2d\x2d", .grp 2 glyph]

def re3b : RE := seq [.grp 1 glyph, lit "\x2d", .grp 2 glyph]

def re3c : RE := seq [.grp 1 glyph, lit "—", .grp 2 glyph]

def re4a : RE :=
  seq [ch ':', sStar, .grp 1 (.plusG (fun c => c ≠ '"' && c ≠ '\n')), .eol true]

def re4b : RE :=
  seq [ch ':', sStar, ch '"', .grp 1 (.starG (fun c => c ≠ '"')), ch '"', .eol true]

/-- `/^\s*\w+\s+{$/` (applied to the trimmed line). -/
def tEnt : RE := seq [.bol false, sStar, wPlus, sPlus, ch '\x7b', .eol false]

/-- `/^\s*\w+\s+\w+/`. -/
def tAttr : RE := seq [.bol false, sStar, wPlus, sPlus, wPlus]

/-- `/{\s*$/`. -/
def tPrevBrace : RE := seq [ch '\x7b', sStar, .eol false]

/-- `/^\s*\w+\s+(\|\||\}o|o\{).*--.*(\|\||\}o|o\{)\s+\w+/`. -/
def tRelLine : RE :=
  seq [.bol false, sStar, wPlus, sPlus, .grp 1 glyph, dotStar, lit "\x2d\x2d", dotStar,
    .grp 2 glyph, sPlus, wPlus]

/-- The body of the `for` loop over `lines` in `autoFormatMermaidSyntax`:
`prev` is the (already processed) previous line, `none` when `i = 0`. -/
def fixLine (prev : Option String) (l : String) : String :=
  let l :=
    if testRe false tEnt (Js.trim l) && !Js.startsWith l "    " then "    " ++ Js.trim l else l
  let l :=
    if Js.trim l = "\x7d" && !Js.startsWith l "    " then "    " ++ Js.trim l else l
  let l :=
    if testRe false tAttr (Js.trim l) && !Js.startsWith l "        " then
      match prev with
      | some p => if testRe false tPrevBrace p then "        " ++ Js.trim l else l
      | none => l
    else l
  if testRe false tRelLine (Js.trim l) then
    let l := if !Js.startsWith l "    " then "    " ++ Js.trim l else l
    let l := replaceAll false re3a [.cap 1, .lit " \x2d\x2d ", .cap 2] l
    let l := replaceAll false re3b [.cap 1, .lit " \x2d\x2d ", .cap 2] l
    replaceAll false re3c [.cap 1, .lit " \x2d\x2d ", .cap 2] l
  else l

def fixLines : Option String → List String → List String
  | _, [] => []
  | prev, l :: rest =>
    let l' := fixLine prev l
    l' :: fixLines (some l') rest

/-- `autoFormatMermaidSyntax` of `mermaidGenerator.service.js`. -/
def autoFormatMermaid (s : String) : String :=
  if s.isEmpty then s
  else
    let f := replaceAll false re1
      [.cap 1, .lit "\n    \x7d\n\n    ", .cap 2] s
    let f := replaceAll false re2 [.lit "\x7d\n\n    ", .cap 1, .lit " \x7b"] f
    let f := replaceAll false re3a [.cap 1, .lit " \x2d\x2d ", .cap 2] f
    let f := replaceAll false re3b [.cap 1, .lit " \x2d\x2d ", .cap 2] f
    let f := replaceAll false re3c [.cap 1, .lit " \x2d\x2d ", .cap 2] f
    let f := replaceAll false re4a [.lit ": \"", .cap 1, .lit "\""] f
    let f := replaceAll false re4b [.lit ": \"", .cap 1, .lit "\""] f
    let lines := Js.splitChar '\n' f
    Js.joinChar '\n' (fixLines none lines)

/-- `sanitizeName`. -/
def sanitizeName (name : String) : String :=
  if name.isEmpty then "unnamed"
  else
    let sanitized := String.mk (name.data.map (fun c => if Js.wordChar c then c else '_'))
    let reservedKeywords := ["class", "break", "case", "catch", "const", "continue",
      "debugger", "default", "delete", "do", "else", "export", "extends", "finally",
      "for", "function", "if", "import", "in", "instanceof", "new", "return",
      "super", "switch", "this", "throw", "try", "typeof", "var", "void",
      "while", "with", "yield"]
    if reservedKeywords.contains (Js.toLower sanitized) then sanitized ++ "_entity"
    else sanitized

/-- `mapDataType`. -/
def mapDataType (dataType : String) : String :=
  if dataType.isEmpty then "string"
  else
    let lowerType := Js.toLower dataType
    if Js.includes lowerType "int" || Js.includes lowerType "number" ||
        Js.includes lowerType "decimal" || Js.includes lowerType "float" ||
        Js.includes lowerType "double" then "number"
    else if Js.includes lowerType "char" || Js.includes lowerType "text" ||
        Js.includes lowerType "string" || Js.includes lowerType "uuid" ||
        Js.includes lowerType "json" then "string"
    else if Js.includes lowerType "date" || Js.includes lowerType "time" then "date"
    else if Js.includes lowerType "bool" then "boolean"
    else "string"

/-- One attribute line of `generateEntityDefinition` (without its trailing
newline): `        ${dataType} ${sanitizeName(column.name)} ${keyIndicator} ${nullableIndicator}`. -/
def attrLine (column : MColumn) : String :=
  let dataType := mapDataType column.dataType
  let keyIndicator :=
    if column.primaryKey then "PK" else if column.foreignKey then "FK" else ""
  let nullableIndicator := if column.nullable then "" else ""
  "        " ++ dataType ++ " " ++ sanitizeName column.name ++ " " ++
    keyIndicator ++ " " ++ nullableIndicator

/-- `generateEntityDefinition`. -/
def generateEntityDefinition (table : MTable) : String :=
  if table.name.isEmpty then ""
  else
    let sanitizedTableName := Js.toLower (sanitizeName table.name)
    let entityDef := "    " ++ sanitizedTableName ++ " \x7b\n"
    let entityDef := table.columns.foldl
      (fun acc column => acc ++ attrLine column ++ "\n")
      entityDef
    entityDef ++ "    \x7d\n\n"

/-- `generateRelationshipDefinition`. -/
def generateRelationshipDefinition (relationship : MRel) : String :=
  if relationship.sourceEntity.isEmpty || relationship.targetEntity.isEmpty then ""
  else
    let sourceEntity := sanitizeName
      (if relationship.sourceEntity.isEmpty then relationship.sourceTable
       else relationship.sourceEntity)
    let targetEntity := sanitizeName
      (if relationship.targetEntity.isEmpty then relationship.targetTable
       else relationship.targetEntity)
    let relationshipName :=
      if relationship.name.isEmpty then "relates" else relationship.name
    let relationshipName := String.mk (relationshipName.data.foldr
      (fun c acc => if c = '"' then '\\' :: '"' :: acc else c :: acc) [])
    let sourceEntityLowerCase := Js.toLower sourceEntity
    let targetEntityLowerCase := Js.toLower targetEntity
    let (sourceCardinality, targetCardinality) :=
      match relationship.cardinality with
      | some card =>
        (if card.source = "many" then "\x7do"
         else if card.source = "one" then "||" else "||",
         if card.target = "many" then "o\x7b"
         else if card.target = "one" then "||" else "||")
      | none =>
        if relationship.type = "one-to-many" then ("||", "o\x7b")
        else if relationship.type = "many-to-one" then ("\x7do", "||")
        else if relationship.type = "many-to-many" then ("\x7do", "o\x7b")
        else ("||", "||")
    "    " ++ sourceEntityLowerCase ++ " " ++ sourceCardinality ++ " \x2d\x2d " ++
      targetCardinality ++ " " ++ targetEntityLowerCase ++ " : \"" ++ relationshipName ++ "\"\n"

end MG

namespace MG

open Rx

/-- `/^\s*(\w+)\s+{$/` — entity-definition start (checked on the trimmed line). -/
def reEntityDef : RE := seq [.bol false, sStar, .grp 1 wPlus, sPlus, ch '\x7b', .eol false]

/-- `/}(\s*)(\w+)(\s*){/`. -/
def reMissingNewline : RE :=
  seq [ch '\x7d', .grp 1 sStar, .grp 2 wPlus, .grp 3 sStar, ch '\x7b']

/-- `/(\w+)(\s+)(\w+)(\s+)(\w+)}(\w+)/`. -/
def reMissingNewlineBeforeBrace : RE :=
  seq [.grp 1 wPlus, .grp 2 sPlus, .grp 3 wPlus, .grp 4 sPlus, .grp 5 wPlus,
    ch '\x7d', .grp 6 wPlus]

/-- `/^\s*(\w+)\s+(\|\||}\o|\o\{)(--|\-\-|—)(\|\||}\o|\o\{)\s+(\w+)/`. -/
def reBadRelationship : RE :=
  seq [.bol false, sStar, .grp 1 wPlus, sPlus, .grp 2 glyph,
    .grp 3 (alts [lit "\x2d\x2d", lit "\x2d\x2d", lit "—"]), .grp 4 glyph, sPlus, .grp 5 wPlus]

/-- `/^\s*(\w+)\s+(\|\||}\o|\o\{)\s+--\s+(\|\||}\o|\o\{)\s+(\w+)/`. -/
def reRelInside : RE :=
  seq [.bol false, sStar, .grp 1 wPlus, sPlus, .grp 2 glyph, sPlus, lit "\x2d\x2d", sPlus,
    .grp 3 glyph, sPlus, .grp 4 wPlus]

/-- `/^\s*(\w+)\s+(\w+)(\s+.*)?$/`. -/
def reAttribute : RE :=
  seq [.bol false, sStar, .grp 1 wPlus, sPlus, .grp 2 wPlus,
    .opt (.grp 3 (seq [sPlus, dotStar])), .eol false]

structure OpenBrace where
  entity : String
  line : Nat
deriving Repr, DecidableEq, Inhabited

structure CSState where
  result : VResult
  openBraces : List OpenBrace
  entities : List String
  currentEntity : Option String
deriving Repr, DecidableEq, Inhabited

def addError (st : CSState) (e : String) : CSState :=
  { st with result := { isValid := false, errors := st.result.errors ++ [e] } }

def capStr (m : M) (i : Nat) : String := ((Caps.lookup m.caps i).map String.mk).getD ""

/-- The body of `checkStructuralErrors`' loop for line index `i` (0-based). -/
def checkLine (i : Nat) (rawLine : String) (st : CSState) : CSState :=
  let line := Js.trim rawLine
  if line = "" || Js.startsWith line "%%" then st
  else
    match search false reEntityDef line.data with
    | some m =>
      let currentEntity := capStr m 1
      { st with currentEntity := some currentEntity,
                entities := st.entities ++ [currentEntity],
                openBraces := st.openBraces ++ [{ entity := currentEntity, line := i + 1 }] }
    | none =>
      match search false reMissingNewline line.data with
      | some m =>
        let st := addError st ("Syntax error on line " ++ Js.num (i + 1) ++
          ": Missing newline between entity definitions. Found \"" ++ line ++
          "\". Entities should be separated by newlines.")
        addError st ("Hint: Replace \"" ++ line ++ "\" with \"\x7d\n\n    " ++
          capStr m 2 ++ " \x7b\"")
      | none =>
        match search false reMissingNewlineBeforeBrace line.data with
        | some m =>
          let attrText := capStr m 1 ++ " " ++ capStr m 3 ++ " " ++ capStr m 5
          let nextEntity := capStr m 6
          let st := addError st ("Syntax error on line " ++ Js.num (i + 1) ++
            ": Missing newline before closing brace. Found \"" ++ line ++ "\".")
          let st := addError st ("Fix: Add a newline after \"" ++ attrText ++
            "\" and before the closing brace.")
          addError st ("Proper format:\n    " ++ attrText ++ "\n    \x7d\n\n    " ++
            nextEntity ++ " \x7b")
        | none =>
          if line = "\x7d" then
            match st.openBraces with
            | [] => addError st ("Unexpected closing brace on line " ++ Js.num (i + 1) ++
                " with no matching opening brace")
            | _ => { st with openBraces := st.openBraces.dropLast }
          else
            match search false reBadRelationship line.data with
            | some m =>
              let st := addError st ("Malformed relationship on line " ++ Js.num (i + 1) ++
                ": \"" ++ line ++ "\". Relationships should have spaces around the \x2d\x2d operator.")
              addError st ("Fix: Format as \"" ++ capStr m 1 ++ " " ++ capStr m 2 ++
                " \x2d\x2d " ++ capStr m 4 ++ " " ++ capStr m 5 ++ "\"")
            | none =>
              let relMatched := (search false reRelInside line.data).isSome
              if relMatched && !st.openBraces.isEmpty then
                addError st ("Relationship defined inside entity block at line " ++
                  Js.num (i + 1) ++ ". Close the entity definition first.")
              else
                if !st.openBraces.isEmpty then
                  let attributeMatch := (search false reAttribute line.data).isSome
                  if line.length > 0 && !attributeMatch && !Js.startsWith line "%%" then
                    addError st ("Malformed attribute on line " ++ Js.num (i + 1) ++
                      " in entity \"" ++ st.currentEntity.getD "null" ++ "\": \"" ++ line ++ "\"")
                  else st
                else st

def checkLinesGo : Nat → List String → CSState → CSState
  | _, [], st => st
  | i, l :: rest, st => checkLinesGo (i + 1) rest (checkLine i l st)

/-- First-occurrence-ordered duplicate counts, as `Object.entries` of the
accumulated `entityCounts` yields them for the identifier-shaped entity names
that occur (integer-like keys would be reordered first by JavaScript; that
could permute only the order of duplicate-entity messages). -/
def countsIn (l : List String) : List (String × Nat) :=
  l.foldl (fun acc e =>
    if acc.any (fun p => p.1 = e) then
      acc.map (fun p => if p.1 = e then (p.1, p.2 + 1) else p)
    else acc ++ [(e, 1)]) []

/-- `checkStructuralErrors` (the `result` parameter is mutated in place in the
source; here it is threaded). -/
def checkStructural (s : String) (result : VResult) : VResult :=
  let st : CSState :=
    { result := result, openBraces := [], entities := [], currentEntity := none }
  let st := checkLinesGo 0 (Js.splitChar '\n' s) st
  let st := st.openBraces.foldl
    (fun st brace => addError st ("Unclosed entity definition for \x27" ++ brace.entity ++
      "\x27 started on line " ++ Js.num brace.line)) st
  let st := (countsIn st.entities).foldl
    (fun st p =>
      if p.2 > 1 then
        addError st ("Duplicate entity definition: \x27" ++ p.1 ++ "\x27 defined " ++
          Js.num p.2 ++ " times")
      else st) st
  st.result

/-- `/\s+(\w+)\s+{/g`. -/
def reEntityG : RE := seq [sPlus, .grp 1 wPlus, sPlus, ch '\x7b']

/-- `/\s+(\w+)\s+(\|\||}\o|\o\{)\s*--\s*(\|\||}\o|\o\{)\s+(\w+)/g`. -/
def reRelG : RE :=
  seq [sPlus, .grp 1 wPlus, sPlus, .grp 2 glyph, sStar, lit "\x2d\x2d", sStar,
    .grp 3 glyph, sPlus, .grp 4 wPlus]

/-- `/^\w+$/`. -/
def reAllWord : RE := seq [.bol false, wPlus, .eol false]

/-- The scan for the target entity: the last `parts[i]` that is truthy and
matches `/^\w+$/`, lower-cased, `''` when none. -/
def lastWordPart (parts : List String) : String :=
  match parts.reverse.find? (fun p => !p.isEmpty && testRe false reAllWord p) with
  | some p => Js.toLower p
  | none => ""

/-- One iteration of `validateMermaidSyntax`'s relationship-reference loop. -/
def relRefStep (entityNames : List String) (result : VResult) (rm : String) : VResult :=
  let parts := splitRe false sPlus (Js.trim rm)
  let sourceEntity :=
    match parts with
    | p :: _ => if !p.isEmpty then Js.toLower p else ""
    | [] => ""
  let targetEntity := lastWordPart parts
  let result :=
    if !entityNames.contains sourceEntity then
      { isValid := false, errors := result.errors ++
        ["Relationship references undefined source entity: " ++ sourceEntity] }
    else result
  if !entityNames.contains targetEntity then
    { isValid := false, errors := result.errors ++
      ["Relationship references undefined target entity: " ++ targetEntity] }
  else result

/-- `validateMermaidSyntax`. -/
def validateMermaid (s : String) : VResult :=
  if s.isEmpty || s = "erDiagram\n" then
    { isValid := false, errors := ["Empty diagram: No entities or relationships defined"] }
  else
    let formatted := autoFormatMermaid s
    let result : VResult := { isValid := true, errors := [] }
    let result := checkStructural formatted result
    let entityMatches := matchG false reEntityG formatted
    let entityNames := (entityMatches.map (fun mtxt =>
      match splitRe false sPlus (Js.trim mtxt) with
      | p :: _ => if !p.isEmpty then Js.toLower p else ""
      | [] => "")).filter (fun n => !n.isEmpty)
    let result :=
      if entityNames.length > 20 then
        { isValid := false, errors := result.errors ++ ["Warning: Diagram contains " ++
          Js.num entityNames.length ++ " entities. Large diagrams may have rendering issues."] }
      else result
    let relationshipMatches := matchG false reRelG formatted
    let result :=
      if relationshipMatches.length > 30 then
        { isValid := false, errors := result.errors ++ ["Warning: Diagram contains " ++
          Js.num relationshipMatches.length ++
          " relationships. Complex layouts may have rendering issues."] }
      else result
    relationshipMatches.foldl (relRefStep entityNames) result

/-- `generateMermaidERD`.  The input is `none` when the caller passes a value
failing the source's `!schema || !schema.tables || !Array.isArray(schema.tables)`
check, on which the source throws `'Invalid schema structure'`; a thrown error
is an `Except.error`. -/
def generateMermaidERD (schema : Option MSchema) : Except String String :=
  match schema with
  | none => .error "Invalid schema structure"
  | some schema =>
    let s := "erDiagram\n"
    let s := schema.tables.foldl (fun acc t => acc ++ generateEntityDefinition t) s
    let s :=
      match schema.relationships with
      | some rels => rels.foldl (fun acc r => acc ++ generateRelationshipDefinition r) s
      | none => s
    let s := autoFormatMermaid s
    let validation := validateMermaid s
    let s :=
      if !validation.isValid then
        s ++ "\n    %% Validation Warnings:\n" ++
          String.join (validation.errors.map (fun e => "    %% \x2d " ++ e ++ "\n"))
      else s
    .ok s

end MG

/-! ## Extraction result shape (`processWithBasicNLP` / `fallbackEntityExtraction`
output, the schema generator's input) -/

namespace NLP

/-- A `references: { entity, attribute }` object (the `attribute` key is a Lean
keyword, rendered `attr`). -/
structure NRef where
  entity : String
  attr : String
deriving Repr, DecidableEq, Inhabited

/-- An attribute object as the extractor builds them.  Keys the extractor adds
only sometimes are `Option` (absent = `none`). -/
structure NAttr where
  name : String
  dataType : String
  isPrimaryKey : Bool
  isNullable : Bool
  isForeignKey : Option Bool := none
  isUnique : Option Bool := none
  defaultValue : Option String := none
  onUpdate : Option String := none
  references : Option NRef := none
  description : String := ""
deriving Repr, DecidableEq, Inhabited

structure NEntity where
  name : String
  attributes : List NAttr
  isJunctionTable : Option Bool := none
  description : String := ""
deriving Repr, DecidableEq, Inhabited

structure NRel where
  sourceEntity : String
  targetEntity : String
  type : String
  isWeak : Option Bool := none
  participationType : Option String := none
  description : String := ""
deriving Repr, DecidableEq, Inhabited

structure NLPResult where
  entities : List NEntity
  relationships : List NRel
  inheritance : List String := []
deriving Repr, DecidableEq, Inhabited

end NLP

/-! ## `src/services/schemaGenerator.service.js` -/

namespace SG

open Rx

/-- A column's `references` value: either the `{ table, column, onDelete,
onUpdate }` shape the generator builds, or an extractor `{ entity, attribute }`
object passed through unchanged. -/
inductive ColRefs where
  | tableRef (table : String) (column : String) (onDelete : String) (onUpdate : String)
  | entityRef (entity : String) (attr : String)
deriving Repr, DecidableEq, Inhabited

structure Column where
  name : String
  dataType : String
  isPrimaryKey : Bool
  isForeignKey : Bool
  isNullable : Bool
  isUnique : Option Bool := none
  defaultValue : Option String := none
  references : Option ColRefs := none
  description : String := ""
deriving Repr, DecidableEq, Inhabited

structure Pos where
  x : Int
  y : Int
deriving Repr, DecidableEq, Inhabited

structure Table where
  name : String
  columns : List Column
  description : String := ""
  position : Pos
deriving Repr, DecidableEq, Inhabited

structure SchemaRel where
  name : String
  sourceTable : String
  targetTable : String
  sourceColumn : String
  targetColumn : String
  type : String
  junctionTable : Option String := none
  description : String := ""
deriving Repr, DecidableEq, Inhabited

/-- The schema object (`createdAt`/`updatedAt` are wall-clock `new Date()`
values and are not modelled). -/
structure Schema where
  name : String
  description : String
  tables : List Table
  relationships : List SchemaRel
  version : Nat
deriving Repr, DecidableEq, Inhabited

def lowerAZ (c : Char) : Bool := 'a' ≤ c && c ≤ 'z'
def upperAZ (c : Char) : Bool := 'A' ≤ c && c ≤ 'Z'
def digit09 (c : Char) : Bool := '0' ≤ c && c ≤ '9'

/-- `transformTableName`. -/
def transformTableName (entityName : String) : String :=
  let s := replaceAll false (seq [.grp 1 (.cls lowerAZ), .grp 2 (.cls upperAZ)])
    [.cap 1, .lit "_", .cap 2] entityName
  let s := Js.toLower s
  let s := replaceAll false sPlus [.lit "_"] s
  let s := replaceAll false (.cls (fun c => !(lowerAZ c || digit09 c || c = '_'))) [] s
  replaceFirst false (seq [.bol false, .cls digit09]) [.lit "_", .whole] s

/-- `inferDataType`. -/
def inferDataType (attributeName : String) : String :=
  let name := Js.toLower attributeName
  if name = "id" || Js.endsWith name "_id" || Js.endsWith name "id" then "INTEGER"
  else if Js.includes name "date" || Js.includes name "time" then "TIMESTAMP"
  else if Js.includes name "price" || Js.includes name "cost" || Js.includes name "amount" then
    "DECIMAL(10,2)"
  else if Js.includes name "is_" || Js.includes name "has_" || name = "active" ||
      name = "enabled" then "BOOLEAN"
  else if Js.includes name "description" || Js.includes name "content" ||
      Js.includes name "text" then "TEXT"
  else if Js.includes name "email" then "VARCHAR(255)"
  else if Js.includes name "phone" then "VARCHAR(20)"
  else "VARCHAR(255)"

/-- `generateColumnsFromAttributes`. -/
def generateColumnsFromAttributes (attributes : List NLP.NAttr) : List Column :=
  if attributes.isEmpty then
    [ { name := "id", dataType := "INTEGER", isPrimaryKey := true, isForeignKey := false,
        isNullable := false, isUnique := some true, description := "Primary key" },
      { name := "name", dataType := "VARCHAR(255)", isPrimaryKey := false,
        isForeignKey := false, isNullable := false, isUnique := some false,
        description := "Name field" },
      { name := "created_at", dataType := "TIMESTAMP", isPrimaryKey := false,
        isForeignKey := false, isNullable := false, defaultValue := some "CURRENT_TIMESTAMP",
        description := "Creation timestamp" },
      { name := "updated_at", dataType := "TIMESTAMP", isPrimaryKey := false,
        isForeignKey := false, isNullable := false, defaultValue := some "CURRENT_TIMESTAMP",
        description := "Last update timestamp" } ]
  else
    attributes.map (fun attr =>
      { name := replaceAll false sPlus [.lit "_"] (Js.toLower attr.name),
        dataType := if !attr.dataType.isEmpty then attr.dataType else inferDataType attr.name,
        isPrimaryKey := attr.isPrimaryKey,
        isForeignKey := attr.isForeignKey.getD false,
        -- `attr.isNullable !== false`
        isNullable := attr.isNullable,
        isUnique := some (attr.isUnique.getD false || attr.isPrimaryKey),
        defaultValue := attr.defaultValue,
        references := attr.references.map (fun r => ColRefs.entityRef r.entity r.attr),
        description := if !attr.description.isEmpty then attr.description
          else attr.name ++ " field" })

/-- Replace the first table satisfying `p` (the object `Array.prototype.find`
returns and the source mutates). -/
def updateFirstTable (p : Table → Bool) (f : Table → Table) : List Table → List Table
  | [] => []
  | t :: r => if p t then f t :: r else t :: updateFirstTable p f r

/-- `transformRelationship`.  The source mutates the found target table in
place (pushing a foreign-key column); here the updated table list is returned
beside the transformed relationship (`none` = the source's `null`). -/
def matchesEntity (entityName : String) (t : Table) : Bool :=
  Js.toLower t.name = Js.toLower (transformTableName entityName)

def transformRelationship (relationship : NLP.NRel) (tables : List Table) :
    List Table × Option SchemaRel :=
  match tables.find? (matchesEntity relationship.sourceEntity),
        tables.find? (matchesEntity relationship.targetEntity) with
  | some sourceTable, some targetTable =>
    -- `sourceTable.columns.find(c => c.isPrimaryKey) || { name: 'id' }`
    let sourceColumn :=
      match sourceTable.columns.find? (fun c => c.isPrimaryKey) with
      | some c => (c.name, c.dataType)
      | none => ("id", "")
    let targetColumn :=
      match targetTable.columns.find? (fun c => c.isPrimaryKey) with
      | some c => c.name
      | none => "id"
    let tables :=
      if relationship.type = "ONE_TO_MANY" then
        let fkName := Js.toLower sourceTable.name ++ "_id"
        if !(targetTable.columns.any (fun c => c.name = fkName)) then
          updateFirstTable (matchesEntity relationship.targetEntity)
            (fun t => { t with columns := t.columns ++
              [ { name := fkName,
                  dataType := if !sourceColumn.2.isEmpty then sourceColumn.2 else "INTEGER",
                  isPrimaryKey := false, isForeignKey := true, isNullable := true,
                  isUnique := some false,
                  references := some (ColRefs.tableRef sourceTable.name sourceColumn.1
                    "CASCADE" "CASCADE"),
                  description := "Foreign key reference to " ++ sourceTable.name } ] })
            tables
        else tables
      else tables
    (tables,
      some { name := sourceTable.name ++ "_" ++ targetTable.name,
             sourceTable := sourceTable.name, targetTable := targetTable.name,
             sourceColumn := sourceColumn.1,
             targetColumn :=
               if relationship.type = "ONE_TO_MANY" then Js.toLower sourceTable.name ++ "_id"
               else targetColumn,
             type := relationship.type,
             description := if !relationship.description.isEmpty then relationship.description
               else "Relationship between " ++ sourceTable.name ++ " and " ++ targetTable.name })
  | _, _ => (tables, none)

/-- `relationships.map(rel => transformRelationship(rel, tables)).filter(Boolean)`
with the in-place table mutation threaded. -/
def transformAll : List NLP.NRel → List Table → List Table × List SchemaRel
  | [], ts => (ts, [])
  | r :: rest, ts =>
    let (ts', rel?) := transformRelationship r ts
    let (tsF, relsF) := transformAll rest ts'
    (tsF, (match rel? with | some x => [x] | none => []) ++ relsF)

/-- The loop body of `createJunctionTables` for one many-to-many
relationship (`tables` is the table list the source closes over). -/
def junctionStep (tables : List Table) (acc : List Table × List SchemaRel)
    (rel : SchemaRel) : List Table × List SchemaRel :=
  let (updatedTables, junctionRelationships) := acc
  match tables.find? (fun t => t.name = rel.sourceTable),
        tables.find? (fun t => t.name = rel.targetTable) with
  | some sourceTable, some targetTable =>
    let junctionTableName := rel.sourceTable ++ "_" ++ rel.targetTable
    let junctionTable : Table :=
      { name := junctionTableName,
        columns :=
          [ { name := Js.toLower rel.sourceTable ++ "_id", dataType := "INTEGER",
              isPrimaryKey := true, isForeignKey := true, isNullable := false,
              isUnique := some false,
              references := some (ColRefs.tableRef rel.sourceTable rel.sourceColumn
                "CASCADE" "CASCADE"),
              description := "Foreign key reference to " ++ rel.sourceTable },
            { name := Js.toLower rel.targetTable ++ "_id", dataType := "INTEGER",
              isPrimaryKey := true, isForeignKey := true, isNullable := false,
              isUnique := some false,
              references := some (ColRefs.tableRef rel.targetTable rel.targetColumn
                "CASCADE" "CASCADE"),
              description := "Foreign key reference to " ++ rel.targetTable },
            { name := "created_at", dataType := "TIMESTAMP", isPrimaryKey := false,
              isForeignKey := false, isNullable := false,
              defaultValue := some "CURRENT_TIMESTAMP",
              description := "Creation timestamp" } ],
        description := "Junction table for " ++ rel.sourceTable ++ " and " ++
          rel.targetTable ++ " many-to-many relationship",
        position := { x := (sourceTable.position.x + targetTable.position.x) / 2,
                      y := (sourceTable.position.y + targetTable.position.y) / 2 + 100 } }
    (updatedTables ++ [junctionTable],
     junctionRelationships ++
      [ { name := rel.sourceTable ++ "_to_" ++ junctionTableName,
          sourceTable := rel.sourceTable, targetTable := junctionTableName,
          sourceColumn := rel.sourceColumn,
          targetColumn := Js.toLower rel.sourceTable ++ "_id",
          type := "ONE_TO_MANY", junctionTable := some junctionTableName,
          description := "One-to-many relationship from " ++ rel.sourceTable ++
            " to junction table" },
        { name := rel.targetTable ++ "_to_" ++ junctionTableName,
          sourceTable := rel.targetTable, targetTable := junctionTableName,
          sourceColumn := rel.targetColumn,
          targetColumn := Js.toLower rel.targetTable ++ "_id",
          type := "ONE_TO_MANY", junctionTable := some junctionTableName,
          description := "One-to-many relationship from " ++ rel.targetTable ++
            " to junction table" } ])
  | _, _ => acc

/-- `createJunctionTables`. -/
def createJunctionTables (tables : List Table) (relationships : List SchemaRel) :
    List Table × List SchemaRel :=
  let manyToManyRelationships := relationships.filter (fun r => r.type = "MANY_TO_MANY")
  manyToManyRelationships.foldl (junctionStep tables) (tables, [])

structure GenOptions where
  name : Option String := none
  description : Option String := none
deriving Repr, DecidableEq, Inhabited

/-- The per-entity table literal of `generateSchema`'s `entities.map`. -/
def tableOfEntity (index : Nat) (entity : NLP.NEntity) : Table :=
  { name := transformTableName entity.name,
    columns := generateColumnsFromAttributes entity.attributes,
    description := if !entity.description.isEmpty then entity.description
      else "Table for " ++ entity.name,
    position := { x := (100 : Int) + (index % 3) * 350,
                  y := (100 : Int) + (index / 3) * 250 } }

/-- The table list `generateSchema` builds from the entities, before
relationship processing. -/
def entityTables (extractedData : NLP.NLPResult) : List Table :=
  extractedData.entities.mapIdx tableOfEntity

/-- The body of `generateSchema` for a well-typed input (destructuring defaults
applied as in the source). -/
def generateSchema (extractedData : NLP.NLPResult) (options : GenOptions) : Schema :=
  let relationships := extractedData.relationships
  let name := options.name.getD "New Schema"
  let description := options.description.getD ""
  let tables := entityTables extractedData
  let (tables, transformedRelationships) := transformAll relationships tables
  let (updatedTables, junctionRelationships) :=
    createJunctionTables tables transformedRelationships
  { name := name, description := description, tables := updatedTables,
    relationships := transformedRelationships ++ junctionRelationships, version := 1 }

/-- `generateSchema` as exported: passing a completely unreadable object
(`none`) makes the source's body raise, which its `catch` rethrows as
`Failed to generate schema: ...`; any well-typed input reaches the end of the
`try` block. -/
def generateSchemaE (extractedData : Option NLP.NLPResult) (options : GenOptions) :
    Except String Schema :=
  match extractedData with
  | none => .error "Failed to generate schema: Cannot destructure a non-object"
  | some ed => .ok (generateSchema ed options)

end SG

/-! ## `src/controllers/schema.controller.js` — the rule-based extractor -/

namespace NLP

open Rx

/-- Insertion-ordered string-keyed map (a JavaScript object / `Map` with the
identifier-shaped keys the extractor uses). -/
abbrev AList (β : Type) := List (String × β)

def getA (m : AList β) (k : String) : Option β :=
  match m.find? (fun p => p.1 = k) with
  | some p => some p.2
  | none => none

def hasA (m : AList β) (k : String) : Bool := (getA m k).isSome

/-- Assignment: overwrite in place when the key exists, append otherwise. -/
def setA (m : AList β) (k : String) (v : β) : AList β :=
  if hasA m k then m.map (fun p => if p.1 = k then (k, v) else p) else m ++ [(k, v)]

/-- `[...new Set(xs)]`: first occurrences, in order. -/
def uniq (xs : List String) : List String :=
  (xs.foldl (fun acc x => if acc.contains x then acc else acc ++ [x]) [])

def g1 (a : RE) : RE := .grp 1 a
def g2 (a : RE) : RE := .grp 2 a
def g3 (a : RE) : RE := .grp 3 a

/-- `.` in the extractor's `/gi` patterns (no `s` flag). -/
def dotC (c : Char) : Bool := c ≠ '\n'

/-- `toTitleCase`: `str.replace(/\w\S*/g, txt => txt.charAt(0).toUpperCase() +
txt.substr(1).toLowerCase())`. -/
def toTitleCase (str : String) : String :=
  replaceAllWith false (seq [w, .starG (fun c => !Js.spaceChar c)])
    (fun txt =>
      match txt.data with
      | [] => ""
      | c :: r => String.mk (Js.upperChar c :: r.map Js.lowerChar))
    str

/-- `guessDataType`: the ordered `{ regex, type }` battery, each tried with
`regex.test(attributeName)` (`/i`). -/
def guessDataType (attributeName : String) : String :=
  let t := fun (re : RE) => testRe true re attributeName
  if t (seq [lit "id", .eol false]) then "INTEGER"
  else if t (alts [seq [.bol false, lit "is"], seq [.bol false, lit "has"],
      seq [.bol false, lit "can"], seq [.bol false, lit "should"], lit "active",
      lit "enabled", seq [lit "status", .eol false]]) then "BOOLEAN"
  else if t (alts [lit "date", lit "time", lit "created_at", lit "updated_at",
      seq [lit "timestamp", .eol false]]) then "TIMESTAMP"
  else if t (alts [lit "price", lit "cost", lit "amount", lit "total", lit "balance",
      lit "money", seq [lit "salary", .eol false]]) then "DECIMAL(10,2)"
  else if t (alts [lit "count", lit "quantity", lit "number", lit "age", lit "year",
      lit "rating", seq [lit "score", .eol false]]) then "INTEGER"
  else if t (seq [lit "email", .eol false]) then "VARCHAR(255)"
  else if t (alts [lit "phone", lit "mobile", seq [lit "fax", .eol false]]) then "VARCHAR(20)"
  else if t (alts [lit "description", lit "content", lit "comment", lit "text",
      lit "message", seq [lit "bio", .eol false]]) then "TEXT"
  else if t (alts [lit "url", lit "link", lit "website", seq [lit "image", .eol false]]) then
    "VARCHAR(512)"
  else if t (alts [lit "zipcode", lit "postal", seq [lit "postcode", .eol false]]) then
    "VARCHAR(10)"
  else if t (alts [lit "password", seq [lit "hash", .eol false]]) then "VARCHAR(255)"
  else "VARCHAR(255)"

/-- `inferRelationshipType`. -/
def inferRelationshipType (sentence sourceEntity targetEntity : String) : String :=
  if Js.includes sentence "many-to-many" ||
      (Js.includes sentence "many" && Js.includes sentence "multiple" &&
       Js.includes sentence sourceEntity && Js.includes sentence targetEntity) then
    "MANY_TO_MANY"
  else if Js.includes sentence "one-to-one" ||
      Js.includes sentence ("each " ++ sourceEntity ++ " has exactly one " ++ targetEntity) ||
      Js.includes sentence ("each " ++ targetEntity ++ " has exactly one " ++ sourceEntity) then
    "ONE_TO_ONE"
  else if Js.includes sentence (sourceEntity ++ "s belong to one " ++ targetEntity) ||
      Js.includes sentence ("multiple " ++ sourceEntity ++ "s per " ++ targetEntity) ||
      Js.includes sentence (targetEntity ++ " has many " ++ sourceEntity ++ "s") then
    "MANY_TO_ONE"
  else if Js.includes sentence (sourceEntity ++ " has many " ++ targetEntity ++ "s") ||
      Js.includes sentence ("one " ++ sourceEntity ++ " to multiple " ++ targetEntity ++ "s") ||
      Js.includes sentence (sourceEntity ++ " contains multiple " ++ targetEntity ++ "s") then
    "ONE_TO_MANY"
  else "ONE_TO_MANY"

/-- The verb list of `extractRelationshipDescription`. -/
def relationshipVerbs : List String :=
  ["has", "have", "contains", "owns", "belongs to", "relates to",
   "is linked to", "is associated with", "references", "depends on"]

/-- `extractRelationshipDescription`: dynamic `new RegExp` patterns per verb,
first verb whose pattern tests wins. -/
def extractRelationshipDescription (sentence sourceEntity targetEntity : String) : String :=
  let cleanedSentence := Js.toLower (Js.trim sentence)
  let sourceLower := Js.toLower sourceEntity
  let targetLower := Js.toLower targetEntity
  let rec go : List String → String
    | [] => "Relationship between " ++ toTitleCase sourceEntity ++ " and " ++
        toTitleCase targetEntity
    | verb :: rest =>
      let pattern1 := seq [lit sourceLower, .opt (lit "s"), sPlus, lit verb, sPlus,
        wPlus, sStar, lit targetLower, .opt (lit "s")]
      let pattern2 := seq [lit targetLower, .opt (lit "s"), sPlus, lit verb, sPlus,
        wStar, sStar, lit sourceLower, .opt (lit "s")]
      if testRe true pattern1 cleanedSentence then
        toTitleCase sourceEntity ++ " " ++ verb ++ " " ++ toTitleCase targetEntity
      else if testRe true pattern2 cleanedSentence then
        toTitleCase targetEntity ++ " " ++ verb ++ " " ++ toTitleCase sourceEntity
      else go rest
  go relationshipVerbs

/-- `fallbackEntityExtraction` (used when part-of-speech tagging is unusable or
the main path raised). -/
def fallbackEntityExtraction (text : String) : NLPResult :=
  let stopwords := ["a", "an", "the", "and", "or", "but", "for", "with", "in", "on",
    "at", "to", "of"]
  let tokens := (splitRe false sPlus text).filter
    (fun word => word.length > 3 && !stopwords.contains (Js.toLower word))
  let commonDbEntities := ["user", "product", "order", "customer", "account", "category",
    "profile", "item", "invoice", "payment", "address", "comment", "review", "post",
    "image", "tag", "transaction"]
  let potentialEntities := commonDbEntities.filter
    (fun entity => Js.includes (Js.toLower text) entity)
  let potentialEntities := potentialEntities ++ tokens.filter
    (fun token =>
      match token.data with
      | [] => true
      | c :: _ => c = Js.upperChar c)
  let uniqueEntities := uniq potentialEntities
  let entities := uniqueEntities.map (fun noun =>
    { name := toTitleCase noun,
      attributes :=
        [ { name := "id", dataType := "INTEGER", isPrimaryKey := true, isNullable := false,
            description := "Primary key" },
          { name := "name", dataType := "VARCHAR(255)", isPrimaryKey := false,
            isNullable := false, description := "Name field" },
          { name := "created_at", dataType := "TIMESTAMP", isPrimaryKey := false,
            isNullable := false, defaultValue := some "CURRENT_TIMESTAMP",
            description := "Creation timestamp" } ] : NEntity })
  let rec pairRels : List NEntity → List NRel
    | [] => []
    | e :: rest =>
      rest.map (fun f =>
        { sourceEntity := e.name, targetEntity := f.name, type := "ONE_TO_MANY",
          description := "Relationship between " ++ e.name ++ " and " ++ f.name }) ++
      pairRels rest
  { entities := entities, relationships := pairRels entities }

/-- Modelled from the spec: the word tokenizer is the external `natural`
library's `WordTokenizer`, not part of this repository; §4.1 specifies only
that the text is split into tokens for tagging.  Modelled as the maximal runs
of word characters. -/
def tokenize (text : String) : List String :=
  matchG false wPlus text

structure TaggedWord where
  token : String
  tag : String
deriving Repr, DecidableEq, Inhabited

structure TaggedResult where
  taggedWords : List TaggedWord
deriving Repr, DecidableEq, Inhabited

/-- Modelled from the spec: part-of-speech tagging is the external `natural`
library's `BrillPOSTagger` with the English lexicon and default tag `'NN'`,
not part of this repository; §4.1 specifies only that tagging yields a
noun-candidate pool from the tokens and may be unavailable.  Modelled as
tagging every token with the configured default noun tag `'NN'`. -/
def posTag (tokens : List String) : Option TaggedResult :=
  some { taggedWords := tokens.map (fun t => { token := t, tag := "NN" }) }

end NLP

namespace NLP

open Rx

/-- `/[^.!?]+[.!?]+/g` — the sentence splitter. -/
def reSentence : RE :=
  seq [.plusG (fun c => !(c = '.' || c = '!' || c = '?')),
    .plusG (fun c => c = '.' || c = '!' || c = '?')]

/-- `entityPatterns` (all `/gi`), in source order. -/
def entityPatterns : List RE :=
  [ seq [lit "each", sPlus, g1 wPlus],
    seq [lit "a", sPlus, g1 wPlus, sPlus, lit "has"],
    seq [lit "an", sPlus, g1 wPlus, sPlus, lit "has"],
    seq [lit "the", sPlus, g1 wPlus, sPlus, lit "has"],
    seq [lit "create", sPlus, .opt (alts [lit "a", lit "an"]), sStar, g1 wPlus],
    seq [g1 wPlus, lit "s", sPlus, alts [lit "have", lit "has", lit "contain"]],
    seq [g1 wPlus, lit "s", sPlus, lit "belong"],
    seq [lit "design", sPlus, .opt (alts [lit "a", lit "an"]), sStar, g1 wPlus],
    seq [lit "table", sPlus, alts [lit "for", lit "of"], sPlus, g1 wPlus],
    seq [lit "entity", sPlus, .opt (alts [lit "named", lit "called"]), sPlus, g1 wPlus],
    seq [g1 wPlus, sPlus, alts [lit "table", lit "entity", lit "object"]],
    seq [g1 wPlus, sPlus, alts [lit "records", lit "data", lit "information"]],
    seq [alts [lit "store", lit "save", lit "record"], sPlus, g1 wPlus, sPlus,
      alts [lit "data", lit "information"]],
    seq [g1 wPlus, sPlus, alts [lit "must", lit "should", lit "will"], sPlus,
      alts [lit "be", lit "have"]],
    seq [alts [lit "create", lit "define"], sPlus, g1 wPlus, sPlus,
      alts [lit "with", lit "containing", lit "having"]] ]

/-- `weakEntityPatterns` (all `/gi`). -/
def weakEntityPatterns : List RE :=
  [ seq [g1 wPlus, sPlus, alts [lit "depends", lit "dependent"], sPlus, lit "on", sPlus,
      g2 wPlus],
    seq [g1 wPlus, sPlus, alts [lit "is part of", lit "belongs to"], sPlus, g2 wPlus],
    seq [g1 wPlus, sPlus, alts [lit "cannot exist without", lit "requires"], sPlus, g2 wPlus],
    seq [lit "weak", sPlus, lit "entity", sPlus, g1 wPlus, sPlus, alts [lit "of", lit "for"],
      sPlus, g2 wPlus] ]

/-- `attributePatterns` (all `/gi`). -/
def attributePatterns : List RE :=
  [ seq [alts [lit "have", lit "has"], sPlus, .opt (alts [lit "a", lit "an"]), sStar,
      g1 wPlus],
    seq [alts [lit "with", lit "including"], sPlus, g1 wPlus],
    seq [g1 wPlus, sPlus, alts [lit "like", lit "such as"], sPlus, g2 (.plusL dotC),
      alts [lit ",", lit "and", lit "."]],
    seq [lit "include", .opt (lit "s"), sPlus, g1 wPlus],
    seq [lit "contain", .opt (lit "s"), sPlus, g1 wPlus],
    seq [g1 wPlus, sPlus, alts [lit "is", lit "are"], sPlus, alts [lit "a", lit "an"], sPlus,
      lit "attribute"],
    seq [alts [lit "with", lit "having"], sPlus, alts [lit "these", lit "the", lit "following"],
      sPlus, alts [lit "fields", lit "attributes", lit "columns"], lit ":", sStar,
      g1 (.plusL dotC), alts [lit ".", lit "\n", .eol false]],
    seq [alts [lit "store", lit "track", lit "record"], sPlus,
      .opt (alts [lit "the", lit "their"]), sPlus, g1 wPlus],
    seq [alts [lit "has", lit "have", lit "include"], sPlus, .opt (alts [lit "a", lit "an"]),
      sStar, g1 wPlus, sPlus, lit "field"],
    seq [lit "properties", sPlus, alts [lit "like", lit "such as", lit "including"], sPlus,
      g1 (.plusL dotC), alts [lit ".", lit "\n", .eol false]],
    seq [g1 wPlus, sPlus, alts [lit "column", lit "field", lit "property"]],
    seq [lit "field", sPlus, alts [lit "for", lit "of", lit "called"], sPlus, g1 wPlus] ]

/-- `dataTypePatterns` (all `/gi`). -/
def dataTypePatterns : List RE :=
  [ seq [g1 wPlus, sPlus, alts [lit "is", lit "as"], sPlus, .opt (alts [lit "a", lit "an"]),
      sStar, g2 wPlus, sPlus, alts [lit "type", lit "datatype"]],
    seq [g1 wPlus, sPlus, alts [lit "stored as", lit "represented as"], sPlus, g2 wPlus],
    seq [g1 wPlus, sPlus, alts [lit "with type", lit "of type"], sPlus, g2 wPlus] ]

/-- `constraintPatterns` (all `/gi`). -/
def constraintPatterns : List RE :=
  [ seq [g1 wPlus, sPlus, alts [lit "must be", lit "should be", lit "is", lit "are"], sPlus,
      alts [lit "unique", lit "not null", lit "required"]],
    seq [g1 wPlus, sPlus, alts [lit "has", lit "with"], sPlus, .opt (alts [lit "a", lit "an"]),
      sStar, alts [lit "default", lit "check", lit "constraint"]],
    seq [g1 wPlus, sPlus, alts [lit "cannot", lit "can\x27t", lit "should not"], sPlus,
      lit "be", sPlus, alts [lit "null", lit "empty"]],
    seq [lit "primary", sPlus, lit "key", sPlus, alts [lit "is", lit "as"], sPlus, g1 wPlus] ]

/-- `relationshipPatterns` (all `/gi`). -/
def relationshipPatterns : List RE :=
  [ seq [g1 wPlus, .opt (lit "s"), sPlus, lit "belong", sPlus, lit "to", sPlus, g2 wPlus,
      .opt (lit "s")],
    seq [g1 wPlus, .opt (lit "s"), sPlus, lit "have", sPlus, g2 wPlus, .opt (lit "s")],
    seq [g1 wPlus, .opt (lit "s"), sPlus, lit "contain", .opt (lit "s"), sPlus, g2 wPlus,
      .opt (lit "s")],
    seq [lit "each", sPlus, g1 wPlus, sPlus, lit "has", sPlus, g2 wPlus, .opt (lit "s")],
    seq [g1 wPlus, .opt (lit "s"), sPlus, alts [lit "are", lit "is"], sPlus, lit "linked",
      sPlus, lit "to", sPlus, g2 wPlus, .opt (lit "s")],
    seq [g1 wPlus, .opt (lit "s"), sPlus, lit "can", sPlus, alts [lit "have", lit "place"],
      sPlus, g2 wPlus, .opt (lit "s")],
    seq [g1 wPlus, .opt (lit "s"), sPlus, alts [lit "references", lit "refers to"], sPlus,
      g2 wPlus, .opt (lit "s")],
    seq [g1 wPlus, .opt (lit "s"), sPlus, alts [lit "associated with", lit "connected to"],
      sPlus, g2 wPlus, .opt (lit "s")],
    seq [lit "relationship", sPlus, lit "between", sPlus, g1 wPlus, .opt (lit "s"), sPlus,
      lit "and", sPlus, g2 wPlus, .opt (lit "s")],
    seq [g1 wPlus, .opt (lit "s"), sPlus, alts [lit "join", lit "links"], sPlus, g2 wPlus,
      .opt (lit "s"), sPlus, alts [lit "and", lit "with"], sPlus, g3 wPlus, .opt (lit "s")],
    seq [g1 wPlus, .opt (lit "s"), sPlus, alts [lit "depends on", lit "requires", lit "needs"],
      sPlus, g2 wPlus, .opt (lit "s")],
    seq [g1 wPlus, .opt (lit "s"), sPlus,
      alts [lit "composed of", lit "made up of", lit "consists of"], sPlus, g2 wPlus,
      .opt (lit "s")],
    seq [g1 wPlus, .opt (lit "s"), sPlus,
      alts [lit "creates", lit "generates", lit "produces"], sPlus, g2 wPlus, .opt (lit "s")] ]

/-- `cardinalityPatterns` (`{ regex, type }`, patterns re-built with flag `i`). -/
def cardinalityPatterns : List (RE × String) :=
  [ (seq [g1 wPlus, .opt (lit "s"), sPlus, lit "have", sPlus,
      alts [lit "many", lit "multiple", lit "several"], sPlus, g2 wPlus, .opt (lit "s")],
     "ONE_TO_MANY"),
    (seq [lit "each", sPlus, g1 wPlus, sPlus, lit "has", sPlus, .opt (lit "exactly"), sStar,
      lit "one", sPlus, g2 wPlus], "ONE_TO_ONE"),
    (seq [g1 wPlus, .opt (lit "s"), sPlus, lit "belong", .opt (lit "s"), sPlus, lit "to",
      sPlus, .opt (lit "exactly"), sStar, lit "one", sPlus, g2 wPlus], "MANY_TO_ONE"),
    (seq [alts [lit "many", lit "multiple"], sPlus, g1 wPlus, .opt (lit "s"), sPlus, lit "to",
      sPlus, alts [lit "many", lit "multiple"], sPlus, g2 wPlus, .opt (lit "s")],
     "MANY_TO_MANY"),
    (seq [lit "one-to-many", sPlus, alts [lit "between", lit "from"], sPlus, g1 wPlus,
      .opt (lit "s"), sPlus, alts [lit "to", lit "and"], sPlus, g2 wPlus, .opt (lit "s")],
     "ONE_TO_MANY"),
    (seq [lit "one-to-one", sPlus, alts [lit "between", lit "from"], sPlus, g1 wPlus,
      .opt (lit "s"), sPlus, alts [lit "to", lit "and"], sPlus, g2 wPlus, .opt (lit "s")],
     "ONE_TO_ONE"),
    (seq [lit "many-to-one", sPlus, alts [lit "between", lit "from"], sPlus, g1 wPlus,
      .opt (lit "s"), sPlus, alts [lit "to", lit "and"], sPlus, g2 wPlus, .opt (lit "s")],
     "MANY_TO_ONE"),
    (seq [lit "many-to-many", sPlus, alts [lit "between", lit "from"], sPlus, g1 wPlus,
      .opt (lit "s"), sPlus, alts [lit "to", lit "and"], sPlus, g2 wPlus, .opt (lit "s")],
     "MANY_TO_MANY"),
    (seq [g1 wPlus, .opt (lit "s"), sPlus, lit "can", sPlus, lit "have", sPlus,
      alts [lit "many", lit "multiple", lit "several"], sPlus, g2 wPlus, .opt (lit "s")],
     "ONE_TO_MANY"),
    (seq [lit "every", sPlus, g1 wPlus, sPlus, alts [lit "must", lit "has to"], sPlus,
      lit "have", sPlus, lit "one", sPlus, g2 wPlus], "MANY_TO_ONE"),
    (seq [lit "1:M", sPlus, alts [lit "between", lit "from"], sPlus, g1 wPlus, .opt (lit "s"),
      sPlus, alts [lit "to", lit "and"], sPlus, g2 wPlus, .opt (lit "s")], "ONE_TO_MANY"),
    (seq [lit "1:1", sPlus, alts [lit "between", lit "from"], sPlus, g1 wPlus, .opt (lit "s"),
      sPlus, alts [lit "to", lit "and"], sPlus, g2 wPlus, .opt (lit "s")], "ONE_TO_ONE"),
    (seq [lit "M:1", sPlus, alts [lit "between", lit "from"], sPlus, g1 wPlus, .opt (lit "s"),
      sPlus, alts [lit "to", lit "and"], sPlus, g2 wPlus, .opt (lit "s")], "MANY_TO_ONE"),
    (seq [lit "M:N", sPlus, alts [lit "between", lit "from"], sPlus, g1 wPlus, .opt (lit "s"),
      sPlus, alts [lit "to", lit "and"], sPlus, g2 wPlus, .opt (lit "s")], "MANY_TO_MANY") ]

/-- `participationConstraintPatterns`. -/
def participationConstraintPatterns : List (RE × String) :=
  [ (seq [g1 wPlus, .opt (lit "s"), sPlus, lit "must", sPlus,
      alts [lit "have", lit "belong to", lit "be in"], sPlus,
      alts [lit "at least one", lit "one or more"], sPlus, g2 wPlus, .opt (lit "s")], "TOTAL"),
    (seq [lit "every", sPlus, g1 wPlus, sPlus, alts [lit "must", lit "has to"], sPlus,
      lit "have", sPlus, alts [lit "at least one", lit "one or more"], sPlus, g2 wPlus,
      .opt (lit "s")], "TOTAL"),
    (seq [g1 wPlus, .opt (lit "s"), sPlus, lit "may", sPlus,
      alts [lit "have", lit "belong to", lit "be in"], sPlus,
      alts [lit "zero or more", lit "some"], sPlus, g2 wPlus, .opt (lit "s")], "PARTIAL"),
    (seq [g1 wPlus, .opt (lit "s"), sPlus, alts [lit "can exist", lit "exist"], sPlus,
      lit "without", sPlus, alts [lit "any", lit "having"], sPlus, g2 wPlus, .opt (lit "s")],
     "PARTIAL") ]

/-- `/default\s+(?:value|is|as)?\s+['"]?([^'"]+)['"]?/i`. -/
def reDefault : RE :=
  let quote := fun (c : Char) => c = Char.ofNat 39 || c = '"'
  seq [lit "default", sPlus, .opt (alts [lit "value", lit "is", lit "as"]), sPlus,
    .opt (.cls quote), g1 (.plusG (fun c => !quote c)), .opt (.cls quote)]

/-- `/,|\band\b/` — the attribute-list splitter. -/
def reListSep : RE := alts [lit ",", seq [.wb, lit "and", .wb]]

end NLP

namespace Rx

def capD (m : M) (i : Nat) : String := ((Caps.lookup m.caps i).map String.mk).getD ""

end Rx

namespace NLP

open Rx

structure EntityInfo where
  name : String
  count : Nat
  originalForms : List String
deriving Repr, DecidableEq, Inhabited

/-- The three accumulator objects of the attribute/data-type/constraint
collection pass. -/
structure CollectSt where
  entityAttributes : AList (List String)
  entityDataTypes : AList (AList String)
  entityConstraints : AList (AList (List String))
deriving Repr, DecidableEq, Inhabited

def fillers : List String := ["a", "an", "the", "and", "or", "with"]

/-- The `sqlType` mapping of the data-type collection. -/
def sqlTypeOf (dataType : String) : String :=
  if ["int", "integer", "number", "count"].contains dataType then "INTEGER"
  else if ["string", "text", "char", "varchar"].contains dataType then "VARCHAR(255)"
  else if ["datetime", "timestamp", "date", "time"].contains dataType then "TIMESTAMP"
  else if ["boolean", "bool", "flag"].contains dataType then "BOOLEAN"
  else if ["decimal", "float", "double", "price", "money"].contains dataType then
    "DECIMAL(10,2)"
  else "VARCHAR(255)"

/-- The `attributePatterns` scan of one sentence for one entity. -/
def collectAttrs (sentence : String) (entityName : String) (st : CollectSt) : CollectSt :=
  attributePatterns.foldl
    (fun st pat =>
      (execAll true pat sentence).foldl
        (fun st m =>
          if Js.truthy (capOf m 1) then
            let attrName := Js.trim (Js.toLower (capD m 1))
            let st :=
              if !hasA st.entityAttributes entityName then
                { st with entityAttributes := setA st.entityAttributes entityName [] }
              else st
            let cur := (getA st.entityAttributes entityName).getD []
            let cur :=
              if Js.truthy (capOf m 2) && Js.includes (capD m 2) "," then
                let attributesList := (splitRe false reListSep (capD m 2)).map
                  (fun attr => Js.toLower (Js.trim attr))
                attributesList.foldl
                  (fun cur attr =>
                    if !attr.isEmpty && attr.length > 1 && !cur.contains attr &&
                        !fillers.contains attr then cur ++ [attr]
                    else cur) cur
              else cur
            let cur :=
              if !cur.contains attrName && !fillers.contains attrName &&
                  attrName.length > 1 then cur ++ [attrName]
              else cur
            { st with entityAttributes := setA st.entityAttributes entityName cur }
          else st)
        st)
    st

/-- The `dataTypePatterns` scan. -/
def collectDataTypes (sentence : String) (entityName : String) (st : CollectSt) : CollectSt :=
  dataTypePatterns.foldl
    (fun st pat =>
      (execAll true pat sentence).foldl
        (fun st m =>
          if Js.truthy (capOf m 1) && Js.truthy (capOf m 2) then
            let attrName := Js.trim (Js.toLower (capD m 1))
            let dataType := Js.trim (Js.toLower (capD m 2))
            let sqlType := sqlTypeOf dataType
            let inner := (getA st.entityDataTypes entityName).getD []
            let updated := setA st.entityDataTypes entityName (setA inner attrName sqlType)
            { st with entityDataTypes := updated }
          else st)
        st)
    st

/-- The `constraintPatterns` scan (the membership checks run on the lowered
sentence). -/
def collectConstraints (sentence lowerSentence : String) (entityName : String)
    (st : CollectSt) : CollectSt :=
  constraintPatterns.foldl
    (fun st pat =>
      (execAll true pat sentence).foldl
        (fun st m =>
          if Js.truthy (capOf m 1) then
            let attrName := Js.trim (Js.toLower (capD m 1))
            let inner := (getA st.entityConstraints entityName).getD []
            let cur := (getA inner attrName).getD []
            let cur :=
              if (Js.includes lowerSentence "unique" ||
                  Js.includes lowerSentence "must be unique") &&
                  !cur.contains "UNIQUE" then cur ++ ["UNIQUE"]
              else cur
            let cur :=
              if (Js.includes lowerSentence "not null" ||
                  Js.includes lowerSentence "cannot be null" ||
                  Js.includes lowerSentence "required" ||
                  Js.includes lowerSentence "must have") &&
                  !cur.contains "NOT NULL" then cur ++ ["NOT NULL"]
              else cur
            let cur :=
              if Js.includes lowerSentence "primary key" &&
                  !cur.contains "PRIMARY KEY" then cur ++ ["PRIMARY KEY"]
              else cur
            let cur :=
              match search true reDefault lowerSentence.data with
              | some dm =>
                if Js.truthy (capOf dm 1) then
                  cur ++ ["DEFAULT: " ++ Js.trim (capD dm 1)]
                else cur
              | none => cur
            let updated := setA st.entityConstraints entityName (setA inner attrName cur)
            { st with entityConstraints := updated }
          else st)
        st)
    st

def idAttr : NAttr :=
  { name := "id", dataType := "INTEGER", isPrimaryKey := true, isNullable := false,
    description := "Primary key" }

def createdAtAttr : NAttr :=
  { name := "created_at", dataType := "TIMESTAMP", isPrimaryKey := false,
    isNullable := false, defaultValue := some "CURRENT_TIMESTAMP",
    description := "Creation timestamp" }

def updatedAtAttr : NAttr :=
  { name := "updated_at", dataType := "TIMESTAMP", isPrimaryKey := false,
    isNullable := false, defaultValue := some "CURRENT_TIMESTAMP",
    onUpdate := some "CURRENT_TIMESTAMP", description := "Last update timestamp" }

/-- One entity object of the extraction (`entitiesMap` value → entity with
`id`, optional `name`, collected attributes and timestamps). -/
def buildEntity (cst : CollectSt) (info : EntityInfo) : NEntity :=
  let entityName := Js.toLower info.name
  let attributes : List NAttr := [idAttr]
  let hasNameLikeAttribute :=
    match getA cst.entityAttributes entityName with
    | some l => l.any (fun attr => ["name", "title", "label"].contains attr)
    | none => false
  let attributes :=
    if !hasNameLikeAttribute then
      attributes ++
        [({ name := "name", dataType := "VARCHAR(255)", isPrimaryKey := false,
            isNullable := false,
            description := "Name of the " ++ info.name } : NAttr)]
    else attributes
  let attributes :=
    match getA cst.entityAttributes entityName with
    | none => attributes
    | some l =>
      l.foldl
        (fun attributes attr =>
          if attributes.any (fun a => a.name = attr) then attributes
          else
            let dataType :=
              match getA cst.entityDataTypes entityName with
              | some inner =>
                match getA inner attr with
                | some t => if !t.isEmpty then t else guessDataType attr
                | none => guessDataType attr
              | none => guessDataType attr
            let constrs :=
              ((getA cst.entityConstraints entityName).bind (fun i => getA i attr)).getD []
            let isPrimaryKey := constrs.contains "PRIMARY KEY"
            let isNullable := !constrs.contains "NOT NULL"
            let isUnique := constrs.contains "UNIQUE"
            let defaultValue :=
              match constrs.find? (fun c => Js.startsWith c "DEFAULT:") with
              | some dc => some (Js.trim (String.mk (dc.data.drop 8)))
              | none => none
            let defaultValue := defaultValue.filter (fun v => !v.isEmpty)
            attributes ++
              [{ name := attr, dataType := dataType, isPrimaryKey := isPrimaryKey,
                 isNullable := isNullable,
                 isUnique := if isUnique then some true else none,
                 defaultValue := defaultValue,
                 description := toTitleCase attr ++ " of the " ++ info.name : NAttr }])
        attributes
  let attributes :=
    if !attributes.any (fun a => a.name = "created_at") then attributes ++ [createdAtAttr]
    else attributes
  let attributes :=
    if !attributes.any (fun a => a.name = "updated_at") then attributes ++ [updatedAtAttr]
    else attributes
  { name := info.name, attributes := attributes,
    description := "Entity representing " ++ info.name ++ " in the system" }

end NLP

namespace NLP

open Rx

structure RelSt where
  entities : List NEntity
  relationshipMap : AList NRel
deriving Repr, DecidableEq, Inhabited

/-- Replace the first entity satisfying `p` (the object `findIndex` locates and
the source mutates). -/
def updateFirstEntity (p : NEntity → Bool) (f : NEntity → NEntity) :
    List NEntity → List NEntity
  | [] => []
  | e :: r => if p e then f e :: r else e :: updateFirstEntity p f r

/-- `e.name.toLowerCase() === name || e.name.toLowerCase() === (name ends in
"s" ? name minus "s" : name + "s")` — the entity lookup used by the
relationship phase. -/
def findEntity (entities : List NEntity) (name : String) : Option NEntity :=
  entities.find? (fun e =>
    Js.toLower e.name = name ||
    Js.toLower e.name = (if Js.endsWith name "s" then Js.dropRight name 1 else name ++ "s"))

/-- The weak-entity branch for one pattern match. -/
def weakStep (st : RelSt) (m : M) : RelSt :=
  if Js.truthy (capOf m 1) && Js.truthy (capOf m 2) then
    let weakEntityName := Js.trim (Js.toLower (capD m 1))
    let strongEntityName := Js.trim (Js.toLower (capD m 2))
    match findEntity st.entities weakEntityName, findEntity st.entities strongEntityName with
    | some weakEntity, some strongEntity =>
      let relationKey := weakEntity.name ++ "-" ++ strongEntity.name ++ "-weak"
      if !hasA st.relationshipMap relationKey then
        let rel : NRel :=
          { sourceEntity := weakEntity.name, targetEntity := strongEntity.name,
            type := "IDENTIFYING_RELATIONSHIP", isWeak := some true,
            description := weakEntity.name ++ " is a weak entity that depends on " ++
              strongEntity.name }
        let fkAttribute : NAttr :=
          { name := Js.toLower strongEntity.name ++ "_id", dataType := "INTEGER",
            isPrimaryKey := true, isNullable := false, isForeignKey := some true,
            references := some { entity := strongEntity.name, attr := "id" },
            description := "Reference to " ++ strongEntity.name ++ " (part of primary key)" }
        let entities := updateFirstEntity (fun e => e.name = weakEntity.name)
          (fun e =>
            if e.attributes.any (fun a => a.name = fkAttribute.name) then e
            else { e with attributes := e.attributes ++ [fkAttribute] })
          st.entities
        { entities := entities,
          relationshipMap := setA st.relationshipMap relationKey rel }
      else st
    | _, _ => st
  else st

/-- The junction entity pushed for a `MANY_TO_MANY` pattern match. -/
def junctionEntity (srcName tgtName : String) : NEntity :=
  { name := srcName ++ "_" ++ tgtName,
    attributes :=
      [ idAttr,
        { name := Js.toLower srcName ++ "_id", dataType := "INTEGER",
          isPrimaryKey := false, isNullable := false, isForeignKey := some true,
          references := some { entity := srcName, attr := "id" },
          description := "Reference to " ++ srcName },
        { name := Js.toLower tgtName ++ "_id", dataType := "INTEGER",
          isPrimaryKey := false, isNullable := false, isForeignKey := some true,
          references := some { entity := tgtName, attr := "id" },
          description := "Reference to " ++ tgtName },
        { name := "created_at", dataType := "TIMESTAMP", isPrimaryKey := false,
          isNullable := false, defaultValue := some "CURRENT_TIMESTAMP",
          description := "Creation timestamp" } ],
    isJunctionTable := some true,
    description := "Junction table connecting " ++ srcName ++ " and " ++ tgtName }

/-- Relationship-type inference inside the pattern branch: the cardinality
battery (first search of each `new RegExp(source, 'i')`), then the keyword
overrides. -/
def patternRelType (lowerSentence sourceName targetName : String) : String :=
  let relationType := cardinalityPatterns.foldl
    (fun relationType pc =>
      match search true pc.1 lowerSentence.data with
      | some cm =>
        if (Js.truthy (capOf cm 1) && Js.includes (Js.toLower (capD cm 1)) sourceName &&
            Js.truthy (capOf cm 2) && Js.includes (Js.toLower (capD cm 2)) targetName) ||
           (Js.truthy (capOf cm 1) && Js.includes (Js.toLower (capD cm 1)) targetName &&
            Js.truthy (capOf cm 2) && Js.includes (Js.toLower (capD cm 2)) sourceName) then
          pc.2
        else relationType
      | none => relationType)
    "ONE_TO_MANY"
  if Js.includes lowerSentence "multiple" && Js.includes lowerSentence "many" then
    "MANY_TO_MANY"
  else if Js.includes lowerSentence "belongs to" || Js.includes lowerSentence "owned by" then
    "MANY_TO_ONE"
  else if Js.includes lowerSentence "has one" || Js.includes lowerSentence "has a single" ||
      Js.includes lowerSentence "exactly one" then "ONE_TO_ONE"
  else if Js.includes lowerSentence "has many" || Js.includes lowerSentence "have multiple" ||
      Js.includes lowerSentence "can have several" then "ONE_TO_MANY"
  else relationType

def patternParticipation (lowerSentence sourceName targetName : String) : Option String :=
  participationConstraintPatterns.foldl
    (fun participationType pc =>
      match search true pc.1 lowerSentence.data with
      | some pm =>
        if (Js.truthy (capOf pm 1) && Js.includes (Js.toLower (capD pm 1)) sourceName &&
            Js.truthy (capOf pm 2) && Js.includes (Js.toLower (capD pm 2)) targetName) ||
           (Js.truthy (capOf pm 1) && Js.includes (Js.toLower (capD pm 1)) targetName &&
            Js.truthy (capOf pm 2) && Js.includes (Js.toLower (capD pm 2)) sourceName) then
          some pc.2
        else participationType
      | none => participationType)
    none

/-- The standard relationship-pattern branch for one match. -/
def relPatStep (lowerSentence originalSentence : String) (st : RelSt) (m : M) : RelSt :=
  if Js.truthy (capOf m 1) && Js.truthy (capOf m 2) then
    let sourceName := Js.trim (Js.toLower (capD m 1))
    let targetName := Js.trim (Js.toLower (capD m 2))
    match findEntity st.entities sourceName, findEntity st.entities targetName with
    | some sourceEntity, some targetEntity =>
      if sourceEntity.name ≠ targetEntity.name then
        let relationType := patternRelType lowerSentence sourceName targetName
        let participationType := patternParticipation lowerSentence sourceName targetName
        let relationKey := sourceEntity.name ++ "-" ++ targetEntity.name
        if !hasA st.relationshipMap relationKey then
          let relationship : NRel :=
            { sourceEntity := sourceEntity.name, targetEntity := targetEntity.name,
              type := relationType,
              participationType := participationType,
              description := extractRelationshipDescription originalSentence
                sourceEntity.name targetEntity.name }
          let st :=
            { st with relationshipMap := setA st.relationshipMap relationKey relationship }
          if relationType = "MANY_TO_MANY" then
            let junctionTableName := sourceEntity.name ++ "_" ++ targetEntity.name
            if !st.entities.any (fun e => e.name = junctionTableName) then
              { st with entities :=
                  st.entities ++ [junctionEntity sourceEntity.name targetEntity.name] }
            else st
          else st
        else st
      else st
    | _, _ => st
  else st

/-- The co-occurrence double loop (`for i; for j = i + 1`). -/
def coPairs (lowerSentence originalSentence : String) :
    List NEntity → AList NRel → AList NRel
  | [], m => m
  | e :: rest, m =>
    let m := rest.foldl
      (fun m f =>
        let relationKey := e.name ++ "-" ++ f.name
        if !hasA m relationKey then
          let relationType := inferRelationshipType lowerSentence
            (Js.toLower e.name) (Js.toLower f.name)
          setA m relationKey
            { sourceEntity := e.name, targetEntity := f.name, type := relationType,
              description := extractRelationshipDescription originalSentence e.name f.name }
        else m)
      m
    coPairs lowerSentence originalSentence rest m

/-- One sentence of the relationship-extraction loop. -/
def relSentenceStep (st : RelSt) (sentence : String) : RelSt :=
  let lowerSentence := Js.toLower sentence
  let originalSentence := Js.trim sentence
  let st := weakEntityPatterns.foldl
    (fun st pat => (execAll true pat lowerSentence).foldl weakStep st) st
  let st := relationshipPatterns.foldl
    (fun st pat => (execAll true pat lowerSentence).foldl
      (relPatStep lowerSentence originalSentence) st) st
  let mentionedEntities := st.entities.filter
    (fun entity => Js.includes lowerSentence (Js.toLower entity.name))
  if mentionedEntities.length ≥ 2 then
    { st with relationshipMap :=
        coPairs lowerSentence originalSentence mentionedEntities st.relationshipMap }
  else st

/-- `processWithBasicNLP`.  The body's `try` never raises for a string input
(every step is total), so the `catch`-to-fallback path is reachable only
through the explicit tagging-usability check. -/
def processWithBasicNLP (text : String) : NLPResult :=
  let sentences :=
    match matchG false reSentence text with
    | [] => [text]
    | ms => ms
  let tokens := tokenize text
  match posTag tokens with
  | none => fallbackEntityExtraction text
  | some taggedResult =>
    let taggedTokens := taggedResult.taggedWords
    let nouns := (taggedTokens.filter (fun tk =>
      !tk.tag.isEmpty &&
        (Js.startsWith tk.tag "NN" || tk.tag = "NNP" || tk.tag = "NNPS"))).map
      (fun tk => Js.toLower tk.token)
    let uniqueNouns := uniq nouns
    let potentialEntities := entityPatterns.foldl
      (fun acc pat =>
        (execAll true pat text).foldl
          (fun acc m =>
            if Js.truthy (capOf m 1) then acc ++ [Js.trim (Js.toLower (capD m 1))]
            else acc)
          acc)
      []
    let commonEntities := uniqueNouns.filter
      (fun noun => noun.length > 3 &&
        !(["database", "system", "schema", "detail", "information", "data"].contains noun))
    let potentialEntities := potentialEntities ++ commonEntities
    let entitiesMap := potentialEntities.foldl
      (fun (m : AList EntityInfo) entity =>
        let singularForm := if Js.endsWith entity "s" then Js.dropRight entity 1 else entity
        let key := singularForm
        match getA m key with
        | none =>
          setA m key { name := toTitleCase entity, count := 1, originalForms := [entity] }
        | some existingEntity =>
          let updatedEntity := { existingEntity with
                                 count := existingEntity.count + 1,
                                 originalForms := existingEntity.originalForms ++ [entity] }
          setA m key updatedEntity)
      []
    let cst : CollectSt :=
      { entityAttributes := [], entityDataTypes := [], entityConstraints := [] }
    let cst := sentences.foldl
      (fun cst sentence =>
        entitiesMap.foldl
          (fun cst kv =>
            let entityInfo := kv.2
            let entityName := Js.toLower entityInfo.name
            let lowerSentence := Js.toLower sentence
            if Js.includes lowerSentence entityName ||
                entityInfo.originalForms.any (fun form => Js.includes lowerSentence form) then
              collectConstraints sentence lowerSentence entityName
                (collectDataTypes sentence entityName (collectAttrs sentence entityName cst))
            else cst)
          cst)
      cst
    let entities := ((entitiesMap.map (fun kv => kv.2)).filter
      (fun entityInfo => entityInfo.count > 0)).map (buildEntity cst)
    let st := sentences.foldl relSentenceStep
      { entities := entities, relationshipMap := [] }
    { entities := st.entities, relationships := st.relationshipMap.map (fun kv => kv.2),
      inheritance := [] }

/-- `extractEntities` as exported.  The delegation to the external
language-model service is out of scope (spec §1: an alternative extraction
path); with it unavailable the source calls `processWithBasicNLP`.  A
non-string input (`none`) makes every path raise, and the outer `catch`
rethrows `Failed to extract entities: ...`. -/
def extractEntities (text : Option String) : Except String NLPResult :=
  match text with
  | none => .error "Failed to extract entities: text is not a string"
  | some t => .ok (processWithBasicNLP t)

end NLP

/-! ## Theorems for the claims -/

/-- C1 counterexample: the auto-repair pass is not idempotent.  On the markup
`||--||--||` (two adjacent relationship-operator spacing defects sharing a
glyph) one application repairs only the first defect, so a second application
still changes the text. -/
theorem C1_auto_repair_not_idempotent :
    MG.autoFormatMermaid (MG.autoFormatMermaid "||\x2d\x2d||\x2d\x2d||") ≠
      MG.autoFormatMermaid "||\x2d\x2d||\x2d\x2d||" := by decide

/-- C1 (amended): the auto-repair pass is not idempotent in one application:
the replacement for one operator-spacing defect consumes the glyph shared with
an immediately following defect, which only the next application can see.  On
the counterexample the first application fixes one defect, the second fixes
the other, and from then on the text is a fixed point (the third application
equals the second). -/
theorem C1_auto_repair_converges :
    MG.autoFormatMermaid "||\x2d\x2d||\x2d\x2d||" = "|| \x2d\x2d ||\x2d\x2d||" ∧
    MG.autoFormatMermaid (MG.autoFormatMermaid "||\x2d\x2d||\x2d\x2d||") =
      "|| \x2d\x2d || \x2d\x2d ||" ∧
    MG.autoFormatMermaid (MG.autoFormatMermaid (MG.autoFormatMermaid
      "||\x2d\x2d||\x2d\x2d||")) =
      MG.autoFormatMermaid (MG.autoFormatMermaid "||\x2d\x2d||\x2d\x2d||") := by
  refine ⟨by decide, by decide, by decide⟩

/-- C4 counterexample: an exception does escape a core function.  The diagram
emitter throws `Invalid schema structure` when the caller passes a value with
no `tables` array, rather than degrading to a well-typed result. -/
theorem C4_emitter_throws_on_unreadable :
    MG.generateMermaidERD none = Except.error "Invalid schema structure" := rfl

/-- C4 (amended): no exception escapes the three core functions for any
readable input — the extractor returns a well-typed extraction for every text
string, the synthesizer returns a schema for every extraction object, and the
emitter returns markup for every schema object; only a completely unreadable
input (a non-string for the extractor, a non-object for the synthesizer, a
value failing the schema-structure check for the emitter) is rejected, by a
thrown error. -/
theorem C4_no_throw_on_readable_input :
    (∀ t : String, ∃ res, NLP.extractEntities (some t) = Except.ok res) ∧
    (∀ ed opts, ∃ s, SG.generateSchemaE (some ed) opts = Except.ok s) ∧
    (∀ sch, ∃ m, MG.generateMermaidERD (some sch) = Except.ok m) :=
  ⟨fun t => ⟨NLP.processWithBasicNLP t, rfl⟩,
   fun ed opts => ⟨SG.generateSchema ed opts, rfl⟩,
   fun _sch => ⟨_, rfl⟩⟩

/-- C6 counterexample: the markup `{` contains an unmatched block-open marker,
yet the validator reports it valid with no errors — a brace that is not in the
canonical `name {` line form is not tracked. -/
theorem C6_bare_open_brace_not_reported :
    (MG.validateMermaid "\x7b").isValid = true ∧ (MG.validateMermaid "\x7b").errors = [] := by
  refine ⟨by decide, by decide⟩

/-- C7 counterexample: for the input `Each order belongs to exactly one
customer.` the rule-based extraction yields no relationship of type
`MANY_TO_ONE` at all (no surface relationship pattern matches the singular
`belongs`), and the synthesized `order` table has no `customer_id` column. -/
theorem C7_no_many_to_one_no_customer_fk :
    ((NLP.processWithBasicNLP "Each order belongs to exactly one customer.").relationships.any
      (fun r => r.type = "MANY_TO_ONE")) = false ∧
    ((SG.generateSchema
        (NLP.processWithBasicNLP "Each order belongs to exactly one customer.") {}).tables.any
      (fun t => t.name = "order" && t.columns.any (fun c => c.name = "customer_id"))) =
      false := by
  refine ⟨by decide, by decide⟩

/-- C7 (amended): for the input `Each order belongs to exactly one customer.`
no surface relationship pattern matches (the battery matches plural `belong
to`, never the singular `belongs`), so the `belongs to exactly one`
cardinality cue is never consulted; the Order–Customer relationship is the
co-occurrence default `ONE_TO_MANY` from Order to Customer, and the
synthesizer therefore adds an `order_id` foreign-key column (nullable,
cascading, referencing `order.id`) to the `customer` table, while the `order`
table gains no `customer_id` column. -/
theorem C7_actual_extraction_and_schema :
    ((NLP.processWithBasicNLP "Each order belongs to exactly one customer.").relationships.any
      (fun r => r.sourceEntity = "Order" && r.targetEntity = "Customer" &&
        r.type = "ONE_TO_MANY")) = true ∧
    ((SG.generateSchema
        (NLP.processWithBasicNLP "Each order belongs to exactly one customer.") {}).tables.any
      (fun t => t.name = "customer" && t.columns.any (fun c =>
        c.name = "order_id" && c.isForeignKey && c.isNullable &&
        c.references = some (SG.ColRefs.tableRef "order" "id" "CASCADE" "CASCADE")))) =
      true := by
  refine ⟨by decide, by decide⟩

/-- C8 counterexample: relationship records are not keyed by the unordered
pair.  For the input `As have bs. Bs have as.` the extractor emits two records
between the entities A and B, one in each direction. -/
theorem C8_both_directions_recorded :
    ((NLP.processWithBasicNLP "As have bs. Bs have as.").relationships.any
      (fun r => r.sourceEntity = "A" && r.targetEntity = "B")) = true ∧
    ((NLP.processWithBasicNLP "As have bs. Bs have as.").relationships.any
      (fun r => r.sourceEntity = "B" && r.targetEntity = "A")) = true := by
  refine ⟨by decide, by decide⟩

namespace SG

/-- The column name the generator uses as a table's primary key: the first
column flagged `isPrimaryKey`, `id` by convention otherwise (§4.2). -/
def pkColName (t : Table) : String :=
  match t.columns.find? (fun c => c.isPrimaryKey) with
  | some c => c.name
  | none => "id"

theorem find?_updateFirstTable (p : Table → Bool) (f : Table → Table)
    (l : List Table) (B : Table) (h : l.find? p = some B) (hf : p (f B) = true) :
    (updateFirstTable p f l).find? p = some (f B) := by
  induction l with
  | nil => simp [List.find?] at h
  | cons t r ih =>
    by_cases hp : p t
    · simp [List.find?, hp] at h
      subst h
      simp [updateFirstTable, hp, List.find?, hf]
    · simp [List.find?, hp] at h
      simp [updateFirstTable, hp, List.find?, ih h]

theorem transformRelationship_fst_eq_of_not_o2m (r : NLP.NRel) (ts : List Table)
    (h : r.type ≠ "ONE_TO_MANY") :
    (transformRelationship r ts).1 = ts := by
  unfold transformRelationship
  cases hs : ts.find? (matchesEntity r.sourceEntity) with
  | none => rfl
  | some A =>
    cases ht : ts.find? (matchesEntity r.targetEntity) with
    | none => rfl
    | some B => simp [h]

end SG

/-- C3: for every `ONE_TO_MANY` relationship whose source and target entities
resolve to tables `A` and `B`, the target (many-side) table gains a foreign-key
column named `<A>_id`, typed like `A`'s primary-key column, nullable, with
cascading delete/update semantics — unless a column of that name already
exists, in which case the table list is returned unchanged. -/
theorem C3_one_to_many_foreign_key (r : NLP.NRel) (tables : List SG.Table)
    (A B : SG.Table) (pk : SG.Column)
    (hty : r.type = "ONE_TO_MANY")
    (hA : tables.find? (SG.matchesEntity r.sourceEntity) = some A)
    (hB : tables.find? (SG.matchesEntity r.targetEntity) = some B)
    (hpk : A.columns.find? (fun c => c.isPrimaryKey) = some pk)
    (hdt : pk.dataType ≠ "") :
    (B.columns.any (fun c => c.name = Js.toLower A.name ++ "_id") = false →
      (SG.transformRelationship r tables).1.find? (SG.matchesEntity r.targetEntity) =
        some { B with columns := B.columns ++
          [{ name := Js.toLower A.name ++ "_id", dataType := pk.dataType,
             isPrimaryKey := false, isForeignKey := true, isNullable := true,
             isUnique := some false,
             references := some (SG.ColRefs.tableRef A.name pk.name "CASCADE" "CASCADE"),
             description := "Foreign key reference to " ++ A.name }] }) ∧
    (B.columns.any (fun c => c.name = Js.toLower A.name ++ "_id") = true →
      (SG.transformRelationship r tables).1 = tables) := by
  have hdt' : (!pk.dataType.isEmpty) = true := by
    cases hcd : pk.dataType.isEmpty
    · rfl
    · exact absurd ((String.isEmpty_iff _).mp hcd) hdt
  constructor
  · intro habs
    have hpB := List.find?_some hB
    unfold SG.transformRelationship
    simp only [hA, hB, hty, hpk, habs, hdt', Bool.not_false, if_true, if_pos rfl]
    exact SG.find?_updateFirstTable _ _ _ _ hB hpB
  · intro hhas
    unfold SG.transformRelationship
    simp [hA, hB, hty, hpk, hhas]

/-- C5: a relationship whose source or target entity resolves to no table is
silently dropped: the table list is unchanged, no relationship record is
emitted, and (for an extraction consisting of that relationship) the generator
still returns a schema — never an error — whose relationship list is empty and
whose tables are exactly the entity tables. -/
theorem C5_dangling_relationship_dropped (r : NLP.NRel) (tables : List SG.Table)
    (h : (tables.find? (SG.matchesEntity r.sourceEntity)).isNone ∨
      (tables.find? (SG.matchesEntity r.targetEntity)).isNone) :
    SG.transformRelationship r tables = (tables, none) ∧
    (∀ (ed : NLP.NLPResult) (opts : SG.GenOptions), ed.relationships = [r] →
      SG.entityTables ed = tables →
      ∃ s, SG.generateSchemaE (some ed) opts = Except.ok s ∧
        s.relationships = [] ∧ s.tables = tables) := by
  have hstep : SG.transformRelationship r tables = (tables, none) := by
    unfold SG.transformRelationship
    cases hs : tables.find? (SG.matchesEntity r.sourceEntity) with
    | none => rfl
    | some A =>
      cases ht : tables.find? (SG.matchesEntity r.targetEntity) with
      | none => rfl
      | some B =>
        rcases h with h | h
        · rw [hs] at h; simp at h
        · rw [ht] at h; simp at h
  refine ⟨hstep, fun ed opts hrels htabs => ?_⟩
  refine ⟨SG.generateSchema ed opts, rfl, ?_, ?_⟩ <;>
    simp [SG.generateSchema, hrels, htabs, SG.transformAll, hstep,
      SG.createJunctionTables]

namespace SG

/-- Table name plus primary-key-column name: the data the relationship
transformer reads from a table, invariant under the fold. -/
def tsig (t : Table) : String × String := (t.name, pkColName t)

theorem pkColName_append_nonPK (t : Table) (c : Column) (hc : c.isPrimaryKey = false) :
    pkColName { t with columns := t.columns ++ [c] } = pkColName t := by
  unfold pkColName
  rw [List.find?_append]
  cases h : t.columns.find? (fun c => c.isPrimaryKey) with
  | some x => simp
  | none => simp [List.find?, hc]

theorem updateFirstTable_map_tsig (p : Table → Bool) (f : Table → Table)
    (hf : ∀ t, tsig (f t) = tsig t) (l : List Table) :
    (updateFirstTable p f l).map tsig = l.map tsig := by
  induction l with
  | nil => rfl
  | cons t r ih =>
    by_cases hp : p t
    · simp [updateFirstTable, hp, hf]
    · simp [updateFirstTable, hp, ih]

theorem transformRelationship_map_tsig (r : NLP.NRel) (ts : List Table) :
    ((transformRelationship r ts).1).map tsig = ts.map tsig := by
  unfold transformRelationship
  cases hs : ts.find? (matchesEntity r.sourceEntity) with
  | none => rfl
  | some A =>
    cases ht : ts.find? (matchesEntity r.targetEntity) with
    | none => rfl
    | some B =>
      by_cases hty : r.type = "ONE_TO_MANY"
      · cases hany : (!B.columns.any (fun c =>
            c.name = Js.toLower A.name ++ "_id")) with
        | true =>
          simp only [hty, if_true, hany]
          exact updateFirstTable_map_tsig _ _
            (fun t => by
              unfold tsig
              rw [pkColName_append_nonPK]
              rfl) _
        | false => simp [hty, hany]
      · simp only [hty, if_false]

theorem transformAll_cons (r : NLP.NRel) (rest : List NLP.NRel) (ts : List Table) :
    transformAll (r :: rest) ts =
      ((transformAll rest (transformRelationship r ts).1).1,
       (match (transformRelationship r ts).2 with | some x => [x] | none => []) ++
         (transformAll rest (transformRelationship r ts).1).2) := by
  simp only [transformAll]

theorem transformAll_map_tsig (rs : List NLP.NRel) (ts : List Table) :
    ((transformAll rs ts).1).map tsig = ts.map tsig := by
  induction rs generalizing ts with
  | nil => rfl
  | cons r rest ih =>
    rw [transformAll_cons]
    exact (ih _).trans (transformRelationship_map_tsig r ts)

theorem matchesEntity_congr (nm : String) (t t' : Table) (h : t'.name = t.name) :
    matchesEntity nm t' = matchesEntity nm t := by
  unfold matchesEntity
  rw [h]

theorem find?_matchesEntity_of_sig_eq (nm : String) {l' l : List Table}
    (h : l'.map tsig = l.map tsig) :
    (l'.find? (matchesEntity nm)).map tsig = (l.find? (matchesEntity nm)).map tsig := by
  induction l' generalizing l with
  | nil =>
    cases l with
    | nil => rfl
    | cons t r => simp at h
  | cons t' r' ih =>
    cases l with
    | nil => simp at h
    | cons t r =>
      simp only [List.map_cons, List.cons.injEq] at h
      obtain ⟨hh, hr⟩ := h
      have hname : t'.name = t.name := congrArg Prod.fst hh
      have hmeq := matchesEntity_congr nm t t' hname
      cases hmt : matchesEntity nm t with
      | false => simpa [List.find?, hmeq, hmt] using ih hr
      | true => simp [List.find?, hmeq, hmt, hh]

end SG

namespace SG

/-- The relationship record `transformRelationship` emits for a many-to-many
relationship resolving to tables with `A`'s and `B`'s signature. -/
def m2mRelOf (r : NLP.NRel) (A B : Table) : SchemaRel :=
  { name := A.name ++ "_" ++ B.name, sourceTable := A.name, targetTable := B.name,
    sourceColumn := pkColName A, targetColumn := pkColName B, type := r.type,
    description := if !r.description.isEmpty then r.description
      else "Relationship between " ++ A.name ++ " and " ++ B.name }

theorem sourceColumn_fst_eq_pkColName (t : Table) :
    (match t.columns.find? (fun c : Column => c.isPrimaryKey) with
      | some c => (c.name, c.dataType)
      | none => ("id", "")).1 = pkColName t := by
  unfold pkColName
  cases t.columns.find? (fun c => c.isPrimaryKey) <;> rfl

theorem targetColumn_eq_pkColName (t : Table) :
    (match t.columns.find? (fun c : Column => c.isPrimaryKey) with
      | some c => c.name
      | none => "id") = pkColName t := by
  unfold pkColName
  cases t.columns.find? (fun c => c.isPrimaryKey) <;> rfl

theorem transformRelationship_m2m (r : NLP.NRel) (ts0 ts' : List Table) (A B : Table)
    (hsig : ts'.map tsig = ts0.map tsig)
    (hA : ts0.find? (matchesEntity r.sourceEntity) = some A)
    (hB : ts0.find? (matchesEntity r.targetEntity) = some B)
    (hty : r.type = "MANY_TO_MANY") :
    transformRelationship r ts' = (ts', some (m2mRelOf r A B)) := by
  have h1 := find?_matchesEntity_of_sig_eq r.sourceEntity hsig
  have h2 := find?_matchesEntity_of_sig_eq r.targetEntity hsig
  rw [hA] at h1
  rw [hB] at h2
  cases hA' : ts'.find? (matchesEntity r.sourceEntity) with
  | none => rw [hA'] at h1; simp at h1
  | some A' =>
    cases hB' : ts'.find? (matchesEntity r.targetEntity) with
    | none => rw [hB'] at h2; simp at h2
    | some B' =>
      rw [hA'] at h1
      rw [hB'] at h2
      have h1' : tsig A' = tsig A := by simpa using h1
      have h2' : tsig B' = tsig B := by simpa using h2
      have hnA : A'.name = A.name := congrArg Prod.fst h1'
      have hnB : B'.name = B.name := congrArg Prod.fst h2'
      have hkA : pkColName A' = pkColName A := congrArg Prod.snd h1'
      have hkB : pkColName B' = pkColName B := congrArg Prod.snd h2'
      have hty' : ¬(r.type = "ONE_TO_MANY") := by rw [hty]; decide
      unfold transformRelationship
      rw [hA', hB']
      simp only [if_neg hty']
      refine congrArg _ (congrArg _ ?_)
      unfold m2mRelOf
      rw [sourceColumn_fst_eq_pkColName, targetColumn_eq_pkColName,
        hnA, hnB, hkA, hkB]

theorem transformAll_mem (rs : List NLP.NRel) (ts : List Table) (r : NLP.NRel)
    (srel : SchemaRel) (hr : r ∈ rs)
    (hstep : ∀ ts', ts'.map tsig = ts.map tsig →
      transformRelationship r ts' = (ts', some srel)) :
    srel ∈ (transformAll rs ts).2 := by
  induction rs generalizing ts with
  | nil => cases hr
  | cons x rest ih =>
    rw [transformAll_cons]
    rcases List.mem_cons.mp hr with hx | hmem
    · subst hx
      rw [hstep ts rfl]
      simp
    · refine List.mem_append_right _ ?_
      refine ih _ hmem (fun ts' hsig => ?_)
      exact hstep ts' (hsig.trans (transformRelationship_map_tsig x ts))

theorem junctionStep_mono (tables : List Table) (l : List SchemaRel)
    (acc : List Table × List SchemaRel) :
    (∀ x ∈ acc.1, x ∈ (l.foldl (junctionStep tables) acc).1) ∧
    (∀ x ∈ acc.2, x ∈ (l.foldl (junctionStep tables) acc).2) := by
  induction l generalizing acc with
  | nil => exact ⟨fun x hx => hx, fun x hx => hx⟩
  | cons rel rest ih =>
    have hstep : (∀ x ∈ acc.1, x ∈ (junctionStep tables acc rel).1) ∧
        (∀ x ∈ acc.2, x ∈ (junctionStep tables acc rel).2) := by
      unfold junctionStep
      cases tables.find? (fun t => t.name = rel.sourceTable) with
      | none => exact ⟨fun x hx => hx, fun x hx => hx⟩
      | some sourceTable =>
        cases tables.find? (fun t => t.name = rel.targetTable) with
        | none => exact ⟨fun x hx => hx, fun x hx => hx⟩
        | some targetTable =>
          exact ⟨fun x hx => List.mem_append_left _ hx,
                 fun x hx => List.mem_append_left _ hx⟩
    have := ih (junctionStep tables acc rel)
    exact ⟨fun x hx => this.1 x (hstep.1 x hx), fun x hx => this.2 x (hstep.2 x hx)⟩

end SG

namespace SG

/-- The columns of the junction table synthesized for `rel`. -/
def junctionColumnsOf (rel : SchemaRel) : List Column :=
  [ { name := Js.toLower rel.sourceTable ++ "_id", dataType := "INTEGER",
      isPrimaryKey := true, isForeignKey := true, isNullable := false,
      isUnique := some false,
      references := some (ColRefs.tableRef rel.sourceTable rel.sourceColumn
        "CASCADE" "CASCADE"),
      description := "Foreign key reference to " ++ rel.sourceTable },
    { name := Js.toLower rel.targetTable ++ "_id", dataType := "INTEGER",
      isPrimaryKey := true, isForeignKey := true, isNullable := false,
      isUnique := some false,
      references := some (ColRefs.tableRef rel.targetTable rel.targetColumn
        "CASCADE" "CASCADE"),
      description := "Foreign key reference to " ++ rel.targetTable },
    { name := "created_at", dataType := "TIMESTAMP", isPrimaryKey := false,
      isForeignKey := false, isNullable := false,
      defaultValue := some "CURRENT_TIMESTAMP",
      description := "Creation timestamp" } ]

/-- The derived source-to-junction relationship. -/
def junctionRel1 (rel : SchemaRel) : SchemaRel :=
  { name := rel.sourceTable ++ "_to_" ++ (rel.sourceTable ++ "_" ++ rel.targetTable),
    sourceTable := rel.sourceTable,
    targetTable := rel.sourceTable ++ "_" ++ rel.targetTable,
    sourceColumn := rel.sourceColumn,
    targetColumn := Js.toLower rel.sourceTable ++ "_id",
    type := "ONE_TO_MANY",
    junctionTable := some (rel.sourceTable ++ "_" ++ rel.targetTable),
    description := "One-to-many relationship from " ++ rel.sourceTable ++
      " to junction table" }

/-- The derived target-to-junction relationship. -/
def junctionRel2 (rel : SchemaRel) : SchemaRel :=
  { name := rel.targetTable ++ "_to_" ++ (rel.sourceTable ++ "_" ++ rel.targetTable),
    sourceTable := rel.targetTable,
    targetTable := rel.sourceTable ++ "_" ++ rel.targetTable,
    sourceColumn := rel.targetColumn,
    targetColumn := Js.toLower rel.targetTable ++ "_id",
    type := "ONE_TO_MANY",
    junctionTable := some (rel.sourceTable ++ "_" ++ rel.targetTable),
    description := "One-to-many relationship from " ++ rel.targetTable ++
      " to junction table" }

theorem junctionStep_found (tables : List Table) (acc : List Table × List SchemaRel)
    (rel : SchemaRel)
    (hsrc : (tables.find? (fun t => t.name = rel.sourceTable)).isSome)
    (htgt : (tables.find? (fun t => t.name = rel.targetTable)).isSome) :
    ∃ pos, junctionStep tables acc rel =
      (acc.1 ++ [{ name := rel.sourceTable ++ "_" ++ rel.targetTable,
                   columns := junctionColumnsOf rel,
                   description := "Junction table for " ++ rel.sourceTable ++ " and " ++
                     rel.targetTable ++ " many-to-many relationship",
                   position := pos }],
       acc.2 ++ [junctionRel1 rel, junctionRel2 rel]) := by
  rcases Option.isSome_iff_exists.mp hsrc with ⟨sA, hsA⟩
  rcases Option.isSome_iff_exists.mp htgt with ⟨tA, htA⟩
  rcases acc with ⟨u, j⟩
  refine ⟨{ x := (sA.position.x + tA.position.x) / 2,
            y := (sA.position.y + tA.position.y) / 2 + 100 }, ?_⟩
  unfold junctionStep
  rw [hsA, htA]
  rfl

theorem foldl_junction_mem (tables : List Table) (l : List SchemaRel) (rel : SchemaRel)
    (hrel : rel ∈ l)
    (hsrc : (tables.find? (fun t => t.name = rel.sourceTable)).isSome)
    (htgt : (tables.find? (fun t => t.name = rel.targetTable)).isSome)
    (acc : List Table × List SchemaRel) :
    (∃ jt ∈ (l.foldl (junctionStep tables) acc).1,
        jt.name = rel.sourceTable ++ "_" ++ rel.targetTable ∧
        jt.columns = junctionColumnsOf rel) ∧
    junctionRel1 rel ∈ (l.foldl (junctionStep tables) acc).2 ∧
    junctionRel2 rel ∈ (l.foldl (junctionStep tables) acc).2 := by
  induction l generalizing acc with
  | nil => cases hrel
  | cons x rest ih =>
    rcases List.mem_cons.mp hrel with hx | hmem
    · subst hx
      rcases junctionStep_found tables acc rel hsrc htgt with ⟨pos, heq⟩
      simp only [List.foldl_cons, heq]
      have mono := junctionStep_mono tables rest
        (acc.1 ++ [{ name := rel.sourceTable ++ "_" ++ rel.targetTable,
                     columns := junctionColumnsOf rel,
                     description := "Junction table for " ++ rel.sourceTable ++ " and " ++
                       rel.targetTable ++ " many-to-many relationship",
                     position := pos }],
         acc.2 ++ [junctionRel1 rel, junctionRel2 rel])
      refine ⟨⟨{ name := rel.sourceTable ++ "_" ++ rel.targetTable,
                 columns := junctionColumnsOf rel,
                 description := "Junction table for " ++ rel.sourceTable ++ " and " ++
                   rel.targetTable ++ " many-to-many relationship",
                 position := pos }, mono.1 _ (by simp), rfl, rfl⟩,
        mono.2 _ (by simp), mono.2 _ (by simp)⟩
    · simp only [List.foldl_cons]
      exact ih hmem _

theorem createJunctionTables_mem (tables : List Table) (rels : List SchemaRel)
    (rel : SchemaRel) (hrel : rel ∈ rels) (hty : rel.type = "MANY_TO_MANY")
    (hsrc : (tables.find? (fun t => t.name = rel.sourceTable)).isSome)
    (htgt : (tables.find? (fun t => t.name = rel.targetTable)).isSome) :
    (∃ jt ∈ (createJunctionTables tables rels).1,
        jt.name = rel.sourceTable ++ "_" ++ rel.targetTable ∧
        jt.columns = junctionColumnsOf rel) ∧
    junctionRel1 rel ∈ (createJunctionTables tables rels).2 ∧
    junctionRel2 rel ∈ (createJunctionTables tables rels).2 := by
  have hmemf : rel ∈ rels.filter (fun r => r.type = "MANY_TO_MANY") := by
    rw [List.mem_filter]
    exact ⟨hrel, by simp [hty]⟩
  exact foldl_junction_mem tables _ rel hmemf hsrc htgt (tables, [])

theorem generateSchema_parts (ed : NLP.NLPResult) (opts : GenOptions) :
    (generateSchema ed opts).tables =
      (createJunctionTables (transformAll ed.relationships (entityTables ed)).1
        (transformAll ed.relationships (entityTables ed)).2).1 ∧
    (generateSchema ed opts).relationships =
      (transformAll ed.relationships (entityTables ed)).2 ++
        (createJunctionTables (transformAll ed.relationships (entityTables ed)).1
          (transformAll ed.relationships (entityTables ed)).2).2 := by
  constructor <;> simp only [generateSchema]

end SG

/-- C2: for every `MANY_TO_MANY` relationship whose entities resolve to tables
`A` and `B`, the synthesized schema contains a junction table named `A_B`
whose columns are exactly two non-nullable foreign-key columns, both part of
the primary key, referencing `A`'s and `B`'s key columns with cascading
delete/update, plus a `created_at` timestamp column; and the schema's
relationship list additionally contains the two derived `ONE_TO_MANY`
relationships from `A` and from `B` to the junction table. -/
theorem C2_many_to_many_junction (ed : NLP.NLPResult) (opts : SG.GenOptions)
    (r : NLP.NRel) (A B : SG.Table)
    (hr : r ∈ ed.relationships) (hty : r.type = "MANY_TO_MANY")
    (hA : (SG.entityTables ed).find? (SG.matchesEntity r.sourceEntity) = some A)
    (hB : (SG.entityTables ed).find? (SG.matchesEntity r.targetEntity) = some B) :
    (∃ jt ∈ (SG.generateSchema ed opts).tables,
        jt.name = A.name ++ "_" ++ B.name ∧
        jt.columns =
          [ { name := Js.toLower A.name ++ "_id", dataType := "INTEGER",
              isPrimaryKey := true, isForeignKey := true, isNullable := false,
              isUnique := some false,
              references := some (SG.ColRefs.tableRef A.name (SG.pkColName A)
                "CASCADE" "CASCADE"),
              description := "Foreign key reference to " ++ A.name },
            { name := Js.toLower B.name ++ "_id", dataType := "INTEGER",
              isPrimaryKey := true, isForeignKey := true, isNullable := false,
              isUnique := some false,
              references := some (SG.ColRefs.tableRef B.name (SG.pkColName B)
                "CASCADE" "CASCADE"),
              description := "Foreign key reference to " ++ B.name },
            { name := "created_at", dataType := "TIMESTAMP", isPrimaryKey := false,
              isForeignKey := false, isNullable := false,
              defaultValue := some "CURRENT_TIMESTAMP",
              description := "Creation timestamp" } ]) ∧
    SG.junctionRel1 (SG.m2mRelOf r A B) ∈ (SG.generateSchema ed opts).relationships ∧
    SG.junctionRel2 (SG.m2mRelOf r A B) ∈ (SG.generateSchema ed opts).relationships := by
  have hsig : ((SG.transformAll ed.relationships (SG.entityTables ed)).1).map SG.tsig =
      (SG.entityTables ed).map SG.tsig := SG.transformAll_map_tsig _ _
  have hsrel : SG.m2mRelOf r A B ∈ (SG.transformAll ed.relationships (SG.entityTables ed)).2 :=
    SG.transformAll_mem _ _ r _ hr
      (fun ts' h => SG.transformRelationship_m2m r (SG.entityTables ed) ts' A B h hA hB hty)
  have hnames : ((SG.transformAll ed.relationships (SG.entityTables ed)).1).map
      (fun t => t.name) = (SG.entityTables ed).map (fun t => t.name) := by
    have h2 := congrArg (List.map Prod.fst) hsig
    simpa [List.map_map, Function.comp_def, SG.tsig] using h2
  have hAmem : A ∈ SG.entityTables ed := List.mem_of_find?_eq_some hA
  have hBmem : B ∈ SG.entityTables ed := List.mem_of_find?_eq_some hB
  have hsrc : (((SG.transformAll ed.relationships (SG.entityTables ed)).1).find?
      (fun t => t.name = (SG.m2mRelOf r A B).sourceTable)).isSome := by
    rw [List.find?_isSome]
    have hmm : A.name ∈ ((SG.transformAll ed.relationships (SG.entityTables ed)).1).map
        (fun t => t.name) := by
      rw [hnames]
      exact List.mem_map_of_mem _ hAmem
    rcases List.mem_map.mp hmm with ⟨t, htmem, htname⟩
    exact ⟨t, htmem, by simp [SG.m2mRelOf, htname]⟩
  have htgt : (((SG.transformAll ed.relationships (SG.entityTables ed)).1).find?
      (fun t => t.name = (SG.m2mRelOf r A B).targetTable)).isSome := by
    rw [List.find?_isSome]
    have hmm : B.name ∈ ((SG.transformAll ed.relationships (SG.entityTables ed)).1).map
        (fun t => t.name) := by
      rw [hnames]
      exact List.mem_map_of_mem _ hBmem
    rcases List.mem_map.mp hmm with ⟨t, htmem, htname⟩
    exact ⟨t, htmem, by simp [SG.m2mRelOf, htname]⟩
  have hj := SG.createJunctionTables_mem _ _ (SG.m2mRelOf r A B) hsrel
    (by simp [SG.m2mRelOf, hty]) hsrc htgt
  have hparts := SG.generateSchema_parts ed opts
  refine ⟨?_, ?_, ?_⟩
  · rcases hj.1 with ⟨jt, hjt, hn, hc⟩
    exact ⟨jt, by rw [hparts.1]; exact hjt, hn, hc⟩
  · rw [hparts.2]
    exact List.mem_append_right _ hj.2.1
  · rw [hparts.2]
    exact List.mem_append_right _ hj.2.2

/-- A two-entity extraction with one many-to-many relationship, for checking
the junction-table theorem on a concrete input. -/
def edAB : NLP.NLPResult :=
  { entities := [{ name := "A", attributes := [] }, { name := "B", attributes := [] }],
    relationships := [{ sourceEntity := "A", targetEntity := "B", type := "MANY_TO_MANY" }] }

/-- C2 witness: the junction-table theorem instantiated on a concrete
two-entity extraction. -/
theorem C2_witness :
    (∃ jt ∈ (SG.generateSchema edAB {}).tables,
        jt.name = (SG.tableOfEntity 0 { name := "A", attributes := [] }).name ++ "_" ++
          (SG.tableOfEntity 1 { name := "B", attributes := [] }).name ∧
        jt.columns =
          [ { name := Js.toLower (SG.tableOfEntity 0 { name := "A", attributes := [] }).name ++
                "_id", dataType := "INTEGER",
              isPrimaryKey := true, isForeignKey := true, isNullable := false,
              isUnique := some false,
              references := some (SG.ColRefs.tableRef
                (SG.tableOfEntity 0 { name := "A", attributes := [] }).name
                (SG.pkColName (SG.tableOfEntity 0 { name := "A", attributes := [] }))
                "CASCADE" "CASCADE"),
              description := "Foreign key reference to " ++
                (SG.tableOfEntity 0 { name := "A", attributes := [] }).name },
            { name := Js.toLower (SG.tableOfEntity 1 { name := "B", attributes := [] }).name ++
                "_id", dataType := "INTEGER",
              isPrimaryKey := true, isForeignKey := true, isNullable := false,
              isUnique := some false,
              references := some (SG.ColRefs.tableRef
                (SG.tableOfEntity 1 { name := "B", attributes := [] }).name
                (SG.pkColName (SG.tableOfEntity 1 { name := "B", attributes := [] }))
                "CASCADE" "CASCADE"),
              description := "Foreign key reference to " ++
                (SG.tableOfEntity 1 { name := "B", attributes := [] }).name },
            { name := "created_at", dataType := "TIMESTAMP", isPrimaryKey := false,
              isForeignKey := false, isNullable := false,
              defaultValue := some "CURRENT_TIMESTAMP",
              description := "Creation timestamp" } ]) ∧
    SG.junctionRel1 (SG.m2mRelOf { sourceEntity := "A", targetEntity := "B", type := "MANY_TO_MANY" }
      (SG.tableOfEntity 0 { name := "A", attributes := [] })
      (SG.tableOfEntity 1 { name := "B", attributes := [] })) ∈
      (SG.generateSchema edAB {}).relationships ∧
    SG.junctionRel2 (SG.m2mRelOf { sourceEntity := "A", targetEntity := "B", type := "MANY_TO_MANY" }
      (SG.tableOfEntity 0 { name := "A", attributes := [] })
      (SG.tableOfEntity 1 { name := "B", attributes := [] })) ∈
      (SG.generateSchema edAB {}).relationships :=
  C2_many_to_many_junction edAB {}
    { sourceEntity := "A", targetEntity := "B", type := "MANY_TO_MANY" }
    (SG.tableOfEntity 0 { name := "A", attributes := [] })
    (SG.tableOfEntity 1 { name := "B", attributes := [] })
    (by decide) rfl (by decide) (by decide)

def tblA : SG.Table :=
  { name := "a",
    columns := [{ name := "id", dataType := "INTEGER", isPrimaryKey := true,
                  isForeignKey := false, isNullable := false }],
    position := { x := 0, y := 0 } }

def tblB : SG.Table :=
  { name := "b", columns := [], position := { x := 0, y := 0 } }

/-- C3 witness: on a concrete two-table list with a one-to-many relationship,
the target table gains the `a_id` foreign-key column. -/
theorem C3_witness :
    (SG.transformRelationship
        { sourceEntity := "A", targetEntity := "B", type := "ONE_TO_MANY" }
        [tblA, tblB]).1.find? (SG.matchesEntity "B") =
      some { tblB with columns := tblB.columns ++
        [{ name := Js.toLower tblA.name ++ "_id", dataType := "INTEGER",
           isPrimaryKey := false, isForeignKey := true, isNullable := true,
           isUnique := some false,
           references := some (SG.ColRefs.tableRef tblA.name "id" "CASCADE" "CASCADE"),
           description := "Foreign key reference to " ++ tblA.name }] } :=
  (C3_one_to_many_foreign_key
    { sourceEntity := "A", targetEntity := "B", type := "ONE_TO_MANY" }
    [tblA, tblB] tblA tblB
    { name := "id", dataType := "INTEGER", isPrimaryKey := true,
      isForeignKey := false, isNullable := false }
    rfl (by decide) (by decide) (by decide) (by decide)).1 (by decide)

/-- C5 witness: with an empty table list every relationship is dangling and is
dropped; a one-relationship extraction with no entities yields a schema with
no relationships and no error. -/
theorem C5_witness :
    SG.transformRelationship
        { sourceEntity := "X", targetEntity := "Y", type := "ONE_TO_MANY" } [] =
      ([], none) ∧
    ∃ s, SG.generateSchemaE
        (some { entities := [],
                relationships := [{ sourceEntity := "X", targetEntity := "Y", type := "ONE_TO_MANY" }] }) {} = Except.ok s ∧
      s.relationships = [] ∧ s.tables = [] :=
  ⟨(C5_dangling_relationship_dropped
      { sourceEntity := "X", targetEntity := "Y", type := "ONE_TO_MANY" } []
      (by decide)).1,
   (C5_dangling_relationship_dropped
      { sourceEntity := "X", targetEntity := "Y", type := "ONE_TO_MANY" } []
      (by decide)).2 _ {} rfl (by decide)⟩

namespace MG

/-- The claim's shape of an attribute line: a simplified type from the four
buckets, the sanitized name, then the optional key marker (`PK` preferred
over `FK`), as `<simplifiedType> <name> [PK|FK]` describes it. -/
def attrLineSpec (c : MColumn) (l : String) : Prop :=
  ∃ ty,
    (ty = "number" ∨ ty = "string" ∨ ty = "date" ∨ ty = "boolean") ∧
    ty = mapDataType c.dataType ∧
    l = "        " ++ ty ++ " " ++ sanitizeName c.name ++ " " ++
      (if c.primaryKey then "PK" else if c.foreignKey then "FK" else "") ++ " "

theorem mapDataType_mem (d : String) :
    mapDataType d = "number" ∨ mapDataType d = "string" ∨ mapDataType d = "date" ∨
      mapDataType d = "boolean" := by
  simp only [mapDataType]
  split_ifs <;> decide

theorem char_toNat_ofNat_valid (n : Nat) (h : n.isValidChar) : (Char.ofNat n).toNat = n := by
  rw [Char.ofNat, dif_pos h]
  rfl

theorem lowerChar_ne_newline (c : Char) (h : c ≠ '\n') : Js.lowerChar c ≠ '\n' := by
  unfold Js.lowerChar
  split_ifs with hc
  · rw [Bool.and_eq_true, decide_eq_true_iff, decide_eq_true_iff] at hc
    have hA : (65 : Nat) ≤ c.toNat := hc.1
    have hZ : c.toNat ≤ (90 : Nat) := hc.2
    intro habs
    have hv : (c.toNat + 32).isValidChar := Or.inl (by omega)
    have h2 := congrArg Char.toNat habs
    rw [char_toNat_ofNat_valid _ hv] at h2
    have h3 : Char.toNat (Char.ofNat 10) = 10 := rfl
    rw [h3] at h2
    omega
  · exact h

theorem toLower_no_newline (s : String) (h : '\n' ∉ s.data) : '\n' ∉ (Js.toLower s).data := by
  intro habs
  unfold Js.toLower at habs
  rcases List.mem_map.mp habs with ⟨c, hc, hcl⟩
  exact lowerChar_ne_newline c (fun he => h (he ▸ hc)) hcl

theorem no_newline_append {s t : String} (hs : '\n' ∉ s.data) (ht : '\n' ∉ t.data) :
    '\n' ∉ (s ++ t).data := by
  rw [String.data_append]
  intro h
  rcases List.mem_append.mp h with h | h
  · exact hs h
  · exact ht h

theorem sanitizeName_core_no_newline (n : String) :
    '\n' ∉ (String.mk (n.data.map (fun c => if Js.wordChar c then c else '_'))).data := by
  intro habs
  rcases List.mem_map.mp habs with ⟨c, _, hcl⟩
  by_cases hw : Js.wordChar c
  · rw [if_pos hw] at hcl
    subst hcl
    exact absurd hw (by decide)
  · rw [if_neg hw] at hcl
    cases hcl

theorem sanitizeName_no_newline (n : String) : '\n' ∉ (sanitizeName n).data := by
  simp only [sanitizeName]
  split_ifs with h1 h2
  · decide
  · exact no_newline_append (sanitizeName_core_no_newline n) (by decide)
  · exact sanitizeName_core_no_newline n

theorem mapDataType_no_newline (d : String) : '\n' ∉ (mapDataType d).data := by
  rcases mapDataType_mem d with h | h | h | h <;> rw [h] <;> decide

theorem attrLine_no_newline (c : MColumn) : '\n' ∉ (attrLine c).data := by
  simp only [attrLine]
  refine no_newline_append (no_newline_append (no_newline_append (no_newline_append
    (no_newline_append (no_newline_append (no_newline_append (by decide)
      (mapDataType_no_newline c.dataType)) (by decide))
      (sanitizeName_no_newline c.name)) (by decide)) ?_) (by decide)) ?_
  · split_ifs <;> decide
  · split_ifs <;> decide

theorem attrLine_spec_holds (c : MColumn) : attrLineSpec c (attrLine c) := by
  refine ⟨mapDataType c.dataType, mapDataType_mem c.dataType, rfl, ?_⟩
  simp only [attrLine]
  split_ifs <;> rw [String.append_empty]

theorem splitChar_go_sep (sep : Char) (l : List Char) (h : sep ∉ l) (r : List Char) :
    ∀ cur, Js.splitChar.go sep cur (l ++ sep :: r) =
      (cur.reverse ++ l) :: Js.splitChar.go sep [] r := by
  induction l with
  | nil =>
      intro cur
      simp [Js.splitChar.go]
  | cons c cs ih =>
      intro cur
      rw [List.mem_cons, not_or] at h
      have hc : ¬ c = sep := fun he => h.1 he.symm
      simp only [List.cons_append, Js.splitChar.go, if_neg hc]
      show Js.splitChar.go sep (c :: cur) (cs ++ sep :: r) =
        (cur.reverse ++ c :: cs) :: Js.splitChar.go sep [] r
      rw [ih h.2]
      simp [List.append_assoc]

theorem splitChar_sep_append (sep : Char) (s t : String) (hs : sep ∉ s.data) :
    Js.splitChar sep (s ++ String.mk [sep] ++ t) = s :: Js.splitChar sep t := by
  show (Js.splitChar.go sep [] (s ++ String.mk [sep] ++ t).data).map String.mk = _
  have hd : (s ++ String.mk [sep] ++ t).data = s.data ++ sep :: t.data := by
    rw [String.data_append, String.data_append, List.append_assoc]
    rfl
  rw [hd, splitChar_go_sep sep s.data hs t.data []]
  rfl

theorem splitChar_newline_append (s t : String) (hs : '\n' ∉ s.data) :
    Js.splitChar '\n' (s ++ "\n" ++ t) =
      s :: Js.splitChar '\n' t :=
  splitChar_sep_append '\n' s t hs

/-- The middle of an entity block: one line per column, each closed by a
newline, as the fold in `generateEntityDefinition` lays them down. -/
def entityBody : List MColumn → String
  | [] => ""
  | c :: cs => attrLine c ++ "\n" ++ entityBody cs

theorem foldl_entityBody (cols : List MColumn) :
    ∀ e : String, cols.foldl (fun acc column => acc ++ attrLine column ++ "\n") e =
      e ++ entityBody cols := by
  induction cols with
  | nil =>
      intro e
      simp [entityBody, String.append_empty]
  | cons c cs ih =>
      intro e
      rw [List.foldl_cons, ih]
      simp only [entityBody, String.append_assoc]

theorem splitChar_body (cols : List MColumn) :
    Js.splitChar '\n' (entityBody cols ++ "    \x7d\n\n") =
      cols.map attrLine ++ ["    \x7d", "", ""] := by
  induction cols with
  | nil => rfl
  | cons c cs ih =>
      have h1 : entityBody (c :: cs) ++ "    \x7d\n\n" =
          attrLine c ++ "\n" ++ (entityBody cs ++ "    \x7d\n\n") := by
        simp only [entityBody, String.append_assoc]
      rw [h1, splitChar_newline_append _ _ (attrLine_no_newline c), ih]
      rfl

end MG

/-- C9: for a table with a nonempty name, splitting the emitted entity block on
newlines yields the header line, then exactly one attribute line per column in
order, then the closing-brace line and the two empty segments of the trailing
blank line; and every attribute line has the form
`<simplifiedType> <name> <marker>` where the simplified type is `mapDataType`
of the column's SQL type and lands in one of the four buckets number, string,
date, boolean, and the marker is `PK` exactly when the column is flagged
primary key and `FK` exactly when it is flagged foreign key but not primary
key. -/
theorem C9_attribute_line_rendering (t : MG.MTable) (h : ¬ t.name.isEmpty) :
    Js.splitChar '\n' (MG.generateEntityDefinition t) =
      ("    " ++ Js.toLower (MG.sanitizeName t.name) ++ " \x7b") ::
        (t.columns.map MG.attrLine ++ ["    \x7d", "", ""]) ∧
    ∀ c ∈ t.columns, MG.attrLineSpec c (MG.attrLine c) := by
  constructor
  · have hdef : MG.generateEntityDefinition t =
        ("    " ++ Js.toLower (MG.sanitizeName t.name) ++ " \x7b") ++ "\n" ++
          (MG.entityBody t.columns ++ "    \x7d\n\n") := by
      simp only [MG.generateEntityDefinition, if_neg h, MG.foldl_entityBody]
      rw [show (" \x7b\n" : String) = " \x7b" ++ "\n" from rfl]
      simp only [String.append_assoc]
    have hnl : '\n' ∉ ("    " ++ Js.toLower (MG.sanitizeName t.name) ++ " \x7b").data :=
      MG.no_newline_append (MG.no_newline_append (by decide)
        (MG.toLower_no_newline _ (MG.sanitizeName_no_newline t.name))) (by decide)
    rw [hdef, MG.splitChar_newline_append _ _ hnl, MG.splitChar_body]
  · intro c _
    exact MG.attrLine_spec_holds c

/-- A concrete two-column table for exercising the entity-block rendering. -/
def tblU : MG.MTable :=
  { name := "user",
    columns := [
      { name := "id", dataType := "INTEGER", primaryKey := true,
        foreignKey := false, nullable := false },
      { name := "email", dataType := "VARCHAR(255)" }] }

/-- C9 witness: the two-column `user` table renders to the expected block and
each of its attribute lines satisfies the line form. -/
theorem C9_witness :
    ¬ tblU.name.isEmpty ∧
      (Js.splitChar '\n' (MG.generateEntityDefinition tblU) =
        ("    " ++ Js.toLower (MG.sanitizeName tblU.name) ++ " \x7b") ::
          (tblU.columns.map MG.attrLine ++ ["    \x7d", "", ""]) ∧
        ∀ c ∈ tblU.columns, MG.attrLineSpec c (MG.attrLine c)) :=
  ⟨by decide, C9_attribute_line_rendering tblU (by decide)⟩

namespace NLP

open Rx

theorem head?_ite {α} {c : Prop} [Decidable c] {l₁ l₂ : List α} {x : α}
    (h1 : l₁.head? = some x) (h2 : l₂.head? = some x) :
    (if c then l₁ else l₂).head? = some x := by
  split_ifs <;> assumption

theorem head?_append_of_head? {α} {l r : List α} {x : α} (h : l.head? = some x) :
    (l ++ r).head? = some x := by
  cases l with
  | nil => cases h
  | cons a as => exact h

theorem foldl_head {α β} (f : List α → β → List α) (x : α)
    (hf : ∀ acc b, acc.head? = some x → (f acc b).head? = some x) :
    ∀ (l : List β) (acc : List α), acc.head? = some x →
      (l.foldl f acc).head? = some x := by
  intro l
  induction l with
  | nil => intro acc h; exact h
  | cons b bs ih => intro acc h; exact ih _ (hf acc b h)

/-- Every entity the pattern path builds starts its attribute list with the
`id` primary-key attribute: the construction seeds `[idAttr]` and every later
phase only appends. -/
theorem buildEntity_head (cst : CollectSt) (info : EntityInfo) :
    (buildEntity cst info).attributes.head? = some idAttr := by
  simp only [buildEntity]
  cases hg : getA cst.entityAttributes (Js.toLower info.name) with
  | none =>
      repeat
        first
          | assumption
          | rfl
          | apply head?_ite
          | apply head?_append_of_head?
  | some l =>
      repeat
        first
          | assumption
          | rfl
          | apply head?_ite
          | apply head?_append_of_head?
          | apply foldl_head
          | intro acc b hacc

theorem head?_attr_ite {c : Prop} [Decidable c] {e₁ e₂ : NEntity} {x : NAttr}
    (h1 : e₁.attributes.head? = some x) (h2 : e₂.attributes.head? = some x) :
    (if c then e₁ else e₂).attributes.head? = some x := by
  split_ifs <;> assumption

theorem updateFirstEntity_pred (P : NEntity → Prop) (p : NEntity → Bool)
    (f : NEntity → NEntity) (hf : ∀ e, P e → P (f e)) :
    ∀ l : List NEntity, (∀ e ∈ l, P e) → ∀ e ∈ updateFirstEntity p f l, P e := by
  intro l
  induction l with
  | nil => intro _ e he; cases he
  | cons a as ih =>
      intro h e he
      simp only [updateFirstEntity] at he
      split at he
      · rcases List.mem_cons.mp he with rfl | he
        · exact hf a (h a (List.mem_cons_self a as))
        · exact h e (List.mem_cons_of_mem a he)
      · rcases List.mem_cons.mp he with rfl | he
        · exact h e (List.mem_cons_self e as)
        · exact ih (fun e' he' => h e' (List.mem_cons_of_mem a he')) e he

/-- The weak-entity branch only ever appends a foreign-key attribute to an
existing entity, so first attributes survive it. -/
theorem weakStep_pred (st : RelSt) (m : M)
    (h : ∀ e ∈ st.entities, e.attributes.head? = some idAttr) :
    ∀ e ∈ (weakStep st m).entities, e.attributes.head? = some idAttr := by
  intro e he
  simp only [weakStep] at he
  split at he
  · split at he
    · split at he
      · refine updateFirstEntity_pred _ _ _ ?_ st.entities h e he
        intro e' he'
        exact head?_attr_ite he' (head?_append_of_head? he')
      · exact h e he
    · exact h e he
  · exact h e he

/-- The standard relationship branch leaves entities alone except for pushing
a junction entity, whose first attribute is the `id` primary key. -/
theorem relPatStep_pred (ls os : String) (st : RelSt) (m : M)
    (h : ∀ e ∈ st.entities, e.attributes.head? = some idAttr) :
    ∀ e ∈ (relPatStep ls os st m).entities, e.attributes.head? = some idAttr := by
  intro e he
  simp only [relPatStep] at he
  split at he
  · split at he
    · split at he
      · split at he
        · split at he
          · split at he
            · rcases List.mem_append.mp he with he | he
              · exact h e he
              · rcases List.mem_singleton.mp he with rfl
                rfl
            · exact h e he
          · exact h e he
        · exact h e he
      · exact h e he
    · exact h e he
  · exact h e he

theorem foldl_entities_pred {β : Type} (P : NEntity → Prop) (f : RelSt → β → RelSt)
    (hf : ∀ st b, (∀ e ∈ st.entities, P e) → ∀ e ∈ (f st b).entities, P e) :
    ∀ (l : List β) (st : RelSt), (∀ e ∈ st.entities, P e) →
      ∀ e ∈ (l.foldl f st).entities, P e := by
  intro l
  induction l with
  | nil => intro st h; exact h
  | cons b bs ih => intro st h; exact ih _ (hf st b h)

theorem relSentenceStep_pred (st : RelSt) (s : String)
    (h : ∀ e ∈ st.entities, e.attributes.head? = some idAttr) :
    ∀ e ∈ (relSentenceStep st s).entities, e.attributes.head? = some idAttr := by
  intro e he
  simp only [relSentenceStep] at he
  split at he
  · refine foldl_entities_pred _ _
      (fun st' pat h' => foldl_entities_pred _ _
        (fun st2 m h2 => relPatStep_pred _ _ st2 m h2) _ st' h') _ _
      (foldl_entities_pred _ _
        (fun st' pat h' => foldl_entities_pred _ _
          (fun st2 m h2 => weakStep_pred st2 m h2) _ st' h') _ _ h) e he
  · exact foldl_entities_pred _ _
      (fun st' pat h' => foldl_entities_pred _ _
        (fun st2 m h2 => relPatStep_pred _ _ st2 m h2) _ st' h') _ _
      (foldl_entities_pred _ _
        (fun st' pat h' => foldl_entities_pred _ _
          (fun st2 m h2 => weakStep_pred st2 m h2) _ st' h') _ _ h) e he

end NLP

/-- C10: every entity object the rule-based extractor produces — in the
pattern-based path (including junction entities synthesized for many-to-many
matches and entities later mutated by the weak-entity branch) and in the
fallback path — has as its first attribute the column named `id` with data
type `INTEGER`, flagged primary key and non-nullable. -/
theorem C10_first_attribute_is_id_pk (t : String) :
    (∀ e ∈ (NLP.processWithBasicNLP t).entities,
        e.attributes.head? = some NLP.idAttr) ∧
    (∀ e ∈ (NLP.fallbackEntityExtraction t).entities,
        e.attributes.head? = some NLP.idAttr) ∧
    NLP.idAttr.name = "id" ∧ NLP.idAttr.dataType = "INTEGER" ∧
    NLP.idAttr.isPrimaryKey = true ∧ NLP.idAttr.isNullable = false := by
  refine ⟨?_, ?_, rfl, rfl, rfl, rfl⟩
  · intro e he
    simp only [NLP.processWithBasicNLP, NLP.posTag] at he
    refine NLP.foldl_entities_pred _ NLP.relSentenceStep
      (fun st s h => NLP.relSentenceStep_pred st s h) _ _ ?_ e he
    intro e' he'
    rcases List.mem_map.mp he' with ⟨info, _, rfl⟩
    exact NLP.buildEntity_head _ info
  · intro e he
    simp only [NLP.fallbackEntityExtraction] at he
    rcases List.mem_map.mp he with ⟨n, _, rfl⟩
    rfl

/-- C10 witness: on the text `tags.` the pattern path extracts the single
entity `Tags`, on the text `user` the fallback path extracts the single
entity `User`, and the invariant instantiated at those inputs gives each of
them first attribute `id`. -/
theorem C10_witness :
    ((NLP.processWithBasicNLP "tags.").entities.map (fun e => e.name)) = ["Tags"] ∧
    ((NLP.fallbackEntityExtraction "user").entities.map (fun e => e.name)) = ["User"] ∧
    (∀ e ∈ (NLP.processWithBasicNLP "tags.").entities,
        e.attributes.head? = some NLP.idAttr) ∧
    (∀ e ∈ (NLP.fallbackEntityExtraction "user").entities,
        e.attributes.head? = some NLP.idAttr) :=
  ⟨by decide, by decide, (C10_first_attribute_is_id_pk "tags.").1,
    (C10_first_attribute_is_id_pk "user").2.1⟩

namespace NLP

open Rx

/-- The identity key the pattern path computes before inserting a relationship
record: the ordered source-target pair, with weak identifying relationships
segregated by a `-weak` suffix. -/
def keyOf (r : NRel) : String :=
  r.sourceEntity ++ "-" ++ r.targetEntity ++
    (if r.type = "IDENTIFYING_RELATIONSHIP" then "-weak" else "")

/-- The relationship-map invariant: stored keys are pairwise distinct and each
stored record's key is its ordered-pair identity key. -/
def RelMapInv (m : AList NRel) : Prop :=
  (m.map Prod.fst).Nodup ∧ ∀ p ∈ m, p.1 = keyOf p.2

/-- A map evolution that keeps the invariant and never loses or overwrites an
existing record (first writer wins). -/
def MapPres (m m' : AList NRel) : Prop :=
  (RelMapInv m → RelMapInv m') ∧ ∀ k v, getA m k = some v → getA m' k = some v

theorem mapPres_refl (m : AList NRel) : MapPres m m :=
  ⟨id, fun _ _ h => h⟩

theorem mapPres_trans {a b c : AList NRel} (h1 : MapPres a b) (h2 : MapPres b c) :
    MapPres a c :=
  ⟨fun h => h2.1 (h1.1 h), fun k v h => h2.2 k v (h1.2 k v h)⟩

theorem not_hasA_not_mem {β} (m : AList β) (k : String) (h : hasA m k = false) :
    k ∉ m.map Prod.fst := by
  intro hk
  rcases List.mem_map.mp hk with ⟨p, hp, hpk⟩
  simp only [hasA, getA] at h
  cases hf : m.find? (fun p => p.1 = k) with
  | some q => rw [hf] at h; simp at h
  | none =>
      have := List.find?_eq_none.mp hf p hp
      simp at this
      exact this hpk

theorem getA_append_of_getA {β} (m m' : AList β) (k : String) (v : β)
    (h : getA m k = some v) : getA (m ++ m') k = some v := by
  simp only [getA] at h ⊢
  cases hf : m.find? (fun p => p.1 = k) with
  | none => rw [hf] at h; cases h
  | some p =>
      rw [hf] at h
      rw [List.find?_append, hf]
      simpa using h

/-- A guarded insertion — `setA` under a fresh key whose value carries that
key as its identity key — preserves the invariant and every stored record. -/
theorem mapPres_setA (m : AList NRel) (k : String) (v : NRel)
    (hk : hasA m k = false) (hv : k = keyOf v) : MapPres m (setA m k v) := by
  rw [setA, if_neg (by simp [hk])]
  constructor
  · intro hm
    constructor
    · rw [List.map_append]
      refine List.Nodup.append hm.1 (by simp) ?_
      intro a ha hb
      rcases List.mem_singleton.mp hb with rfl
      · exact not_hasA_not_mem m a hk ha
    · intro p hp
      rcases List.mem_append.mp hp with hp | hp
      · exact hm.2 p hp
      · rcases List.mem_singleton.mp hp with rfl
        exact hv
  · intro k0 v0 h
    exact getA_append_of_getA m _ k0 v0 h

/-- The co-occurrence default path never produces the weak identifying type. -/
theorem inferRelationshipType_ne (s a b : String) :
    inferRelationshipType s a b ≠ "IDENTIFYING_RELATIONSHIP" := by
  simp only [inferRelationshipType]
  split_ifs <;> decide

theorem foldl_pred_mem {α β} (P : β → Prop) (f : β → α → β) :
    ∀ (l : List α), (∀ acc a, a ∈ l → P acc → P (f acc a)) →
      ∀ init, P init → P (l.foldl f init) := by
  intro l
  induction l with
  | nil => intro _ init h; exact h
  | cons a as ih =>
      intro hf init h
      exact ih (fun acc b hb => hf acc b (List.mem_cons_of_mem a hb)) _
        (hf init a (List.mem_cons_self a as) h)

theorem cardinalitySnds :
    cardinalityPatterns.map Prod.snd =
      ["ONE_TO_MANY", "ONE_TO_ONE", "MANY_TO_ONE", "MANY_TO_MANY", "ONE_TO_MANY",
       "ONE_TO_ONE", "MANY_TO_ONE", "MANY_TO_MANY", "ONE_TO_MANY", "MANY_TO_ONE",
       "ONE_TO_MANY", "ONE_TO_ONE", "MANY_TO_ONE", "MANY_TO_MANY"] := rfl

/-- The cardinality battery and its keyword overrides only yield the four
standard cardinality types, never the weak identifying type. -/
theorem patternRelType_ne (ls sn tn : String) :
    patternRelType ls sn tn ≠ "IDENTIFYING_RELATIONSHIP" := by
  simp only [patternRelType]
  split_ifs <;> try decide
  refine foldl_pred_mem (fun s => s ≠ "IDENTIFYING_RELATIONSHIP") _
    cardinalityPatterns ?_ _ (by decide)
  intro acc pc hpc hacc
  split
  · split_ifs
    · have hm : pc.2 ∈ cardinalityPatterns.map Prod.snd := List.mem_map_of_mem _ hpc
      rw [cardinalitySnds] at hm
      intro habs
      rw [habs] at hm
      exact absurd hm (by decide)
    · exact hacc
  · exact hacc

theorem weakStep_pres (st : RelSt) (m : M) :
    MapPres st.relationshipMap (weakStep st m).relationshipMap := by
  simp only [weakStep]
  split
  · split
    · split
      · rename_i hg
        refine mapPres_setA _ _ _ ?_ ?_
        · rw [← Bool.not_eq_true']
          exact hg
        · simp [keyOf]
      · exact mapPres_refl _
    · exact mapPres_refl _
  · exact mapPres_refl _

theorem relPatStep_pres (ls os : String) (st : RelSt) (m : M) :
    MapPres st.relationshipMap (relPatStep ls os st m).relationshipMap := by
  simp only [relPatStep]
  split
  · split
    · split
      · split
        · rename_i hg
          split
          · split
            · refine mapPres_setA _ _ _ ?_ ?_
              · rw [← Bool.not_eq_true']
                exact hg
              · simp only [keyOf]
                rw [if_neg (patternRelType_ne ls _ _), String.append_empty]
            · refine mapPres_setA _ _ _ ?_ ?_
              · rw [← Bool.not_eq_true']
                exact hg
              · simp only [keyOf]
                rw [if_neg (patternRelType_ne ls _ _), String.append_empty]
          · refine mapPres_setA _ _ _ ?_ ?_
            · rw [← Bool.not_eq_true']
              exact hg
            · simp only [keyOf]
              rw [if_neg (patternRelType_ne ls _ _), String.append_empty]
        · exact mapPres_refl _
      · exact mapPres_refl _
    · exact mapPres_refl _
  · exact mapPres_refl _

theorem foldl_mapPres_a {α : Type} (g : AList NRel → α → AList NRel)
    (hg : ∀ m a, MapPres m (g m a)) :
    ∀ (l : List α) (m : AList NRel), MapPres m (l.foldl g m) := by
  intro l
  induction l with
  | nil => intro m; exact mapPres_refl m
  | cons a as ih => intro m; exact mapPres_trans (hg m a) (ih (g m a))

theorem coPairs_pres (ls os : String) :
    ∀ (es : List NEntity) (m : AList NRel), MapPres m (coPairs ls os es m) := by
  intro es
  induction es with
  | nil => intro m; exact mapPres_refl m
  | cons e rest ih =>
      intro m
      simp only [coPairs]
      refine mapPres_trans ?_ (ih _)
      refine foldl_mapPres_a _ ?_ rest m
      intro m' f
      split
      · rename_i hg
        refine mapPres_setA _ _ _ ?_ ?_
        · rw [← Bool.not_eq_true']
          exact hg
        · simp only [keyOf]
          rw [if_neg (inferRelationshipType_ne ls _ _), String.append_empty]
      · exact mapPres_refl _

theorem foldl_mapPres {α : Type} (f : RelSt → α → RelSt)
    (hf : ∀ st a, MapPres st.relationshipMap (f st a).relationshipMap) :
    ∀ (l : List α) (st : RelSt),
      MapPres st.relationshipMap ((l.foldl f st)).relationshipMap := by
  intro l
  induction l with
  | nil => intro st; exact mapPres_refl _
  | cons a as ih => intro st; exact mapPres_trans (hf st a) (ih (f st a))

/-- One sentence of the relationship loop preserves the key invariant and all
previously written records. -/
theorem relSentenceStep_pres (st : RelSt) (s : String) :
    MapPres st.relationshipMap (relSentenceStep st s).relationshipMap := by
  simp only [relSentenceStep]
  have h1 := foldl_mapPres
    (fun st' pat => (execAll true pat (Js.toLower s)).foldl weakStep st')
    (fun st' pat => foldl_mapPres weakStep (fun s2 m => weakStep_pres s2 m)
      (execAll true pat (Js.toLower s)) st')
    weakEntityPatterns st
  refine mapPres_trans h1 ?_
  have h2 := foldl_mapPres
    (fun st' pat => (execAll true pat (Js.toLower s)).foldl
      (relPatStep (Js.toLower s) (Js.trim s)) st')
    (fun st' pat => foldl_mapPres (relPatStep (Js.toLower s) (Js.trim s))
      (fun s2 m => relPatStep_pres (Js.toLower s) (Js.trim s) s2 m)
      (execAll true pat (Js.toLower s)) st')
    relationshipPatterns
    (weakEntityPatterns.foldl
      (fun st' pat => (execAll true pat (Js.toLower s)).foldl weakStep st') st)
  refine mapPres_trans h2 ?_
  split
  · exact coPairs_pres _ _ _ _
  · exact mapPres_refl _

theorem relMapInv_nil : RelMapInv ([] : AList NRel) := by
  constructor
  · simp
  · intro p hp
    cases hp

theorem pairwise_of_inv (m : AList NRel) (h : RelMapInv m) :
    List.Pairwise (fun a b => keyOf a ≠ keyOf b) (m.map Prod.snd) := by
  rcases h with ⟨hn, hk⟩
  rw [List.pairwise_map]
  have hn' : List.Pairwise (fun p q : String × NRel => p.1 ≠ q.1) m :=
    List.pairwise_map.mp hn
  refine hn'.imp_of_mem ?_
  intro p q hp hq hne
  rw [← hk p hp, ← hk q hq]
  exact hne

end NLP

/-- C8 (amended): in the pattern-based extraction path, relationships are
identified by the ordered (source, target) pair plus kind — weak identifying
relationships carry a separate `-weak` key suffix.  Any two distinct
relationship records in the output differ in that ordered key, and every step
of the sentence loop keeps each already-written record untouched (first
writer wins); records between the same two entities in opposite directions
can coexist. -/
theorem C8_ordered_key_identity (t : String) :
    List.Pairwise (fun a b => NLP.keyOf a ≠ NLP.keyOf b)
      (NLP.processWithBasicNLP t).relationships ∧
    (∀ (st : NLP.RelSt) (s k : String) (v : NLP.NRel),
      NLP.getA st.relationshipMap k = some v →
      NLP.getA (NLP.relSentenceStep st s).relationshipMap k = some v) := by
  constructor
  · simp only [NLP.processWithBasicNLP, NLP.posTag]
    apply NLP.pairwise_of_inv
    exact (NLP.foldl_mapPres NLP.relSentenceStep
      (fun st s => NLP.relSentenceStep_pres st s) _ _).1 NLP.relMapInv_nil
  · intro st s k v h
    exact (NLP.relSentenceStep_pres st s).2 k v h

/-- A concrete already-written relationship record for the first-writer-wins
instance. -/
def relW : NLP.NRel :=
  { sourceEntity := "A", targetEntity := "B", type := "ONE_TO_MANY",
    description := "first writer" }

/-- A relationship state holding `relW` under its ordered key. -/
def stW : NLP.RelSt :=
  { entities := [], relationshipMap := [("A-B", relW)] }

/-- C8 witness: on the text whose two sentences relate the same pair in both
directions the output keys are pairwise distinct, and a sentence step run on
a state already holding the `A-B` record leaves that record in place. -/
theorem C8_witness :
    List.Pairwise (fun a b => NLP.keyOf a ≠ NLP.keyOf b)
      (NLP.processWithBasicNLP "As have bs. Bs have as.").relationships ∧
    NLP.getA (NLP.relSentenceStep stW "bs have as.").relationshipMap "A-B" =
      some relW :=
  ⟨(C8_ordered_key_identity "As have bs. Bs have as.").1,
   (C8_ordered_key_identity "As have bs. Bs have as.").2 stW "bs have as."
     "A-B" relW (by decide)⟩

namespace MG

open Rx

theorem includesL_of_prefix (n h : List Char) (hpre : n.isPrefixOf h = true) :
    Js.includesL h n = true := by
  cases h with
  | nil =>
      cases n with
      | nil => rfl
      | cons c r => cases hpre
  | cons c r =>
      simp only [Js.includesL, Js.includesL.go, if_pos hpre]

theorem includes_of_startsWith (s pre : String) (h : Js.startsWith s pre = true) :
    Js.includes s pre = true :=
  includesL_of_prefix pre.data s.data h

theorem startsWith_append_left (x y pre : String) (h : Js.startsWith x pre = true) :
    Js.startsWith (x ++ y) pre = true := by
  simp only [Js.startsWith, String.data_append] at h ⊢
  rw [List.isPrefixOf_iff_prefix] at h ⊢
  exact h.trans (List.prefix_append _ _)

/-- Error evolution: validity never recovers and recorded errors survive. -/
def ErrPres (r r' : VResult) : Prop :=
  (r.isValid = false → r'.isValid = false) ∧ ∀ e ∈ r.errors, e ∈ r'.errors

theorem errPres_refl (r : VResult) : ErrPres r r :=
  ⟨id, fun _ h => h⟩

theorem errPres_trans {a b c : VResult} (h1 : ErrPres a b) (h2 : ErrPres b c) :
    ErrPres a c :=
  ⟨fun h => h2.1 (h1.1 h), fun e he => h2.2 e (h1.2 e he)⟩

theorem errPres_addError (st : CSState) (e : String) :
    ErrPres st.result (addError st e).result := by
  constructor
  · intro _
    rfl
  · intro x hx
    exact List.mem_append.mpr (Or.inl hx)

theorem checkLine_errPres (i : Nat) (l : String) (st : CSState) :
    ErrPres st.result (checkLine i l st).result := by
  simp only [checkLine]
  repeat' split
  all_goals
    first
      | exact errPres_refl _
      | exact errPres_addError _ _
      | exact errPres_trans (errPres_addError _ _) (errPres_addError _ _)
      | exact errPres_trans (errPres_trans (errPres_addError _ _)
          (errPres_addError _ _)) (errPres_addError _ _)

theorem checkLinesGo_errPres :
    ∀ (lines : List String) (i : Nat) (st : CSState),
      ErrPres st.result (checkLinesGo i lines st).result := by
  intro lines
  induction lines with
  | nil => intro i st; exact errPres_refl _
  | cons l rest ih =>
      intro i st
      exact errPres_trans (checkLine_errPres i l st) (ih (i + 1) (checkLine i l st))

end MG

namespace MG

open Rx

/-- A canonical block-open marker: a non-comment, nonempty trimmed line that
the entity-definition pattern accepts (`name {`). -/
def openLine (rawLine : String) : Bool :=
  let line := Js.trim rawLine
  !(line = "" || Js.startsWith line "%%") &&
    (Rx.search false reEntityDef line.data).isSome

/-- A canonical block-close marker: a line whose trimmed form is exactly the
closing brace. -/
def closeLine (rawLine : String) : Bool := Js.trim rawLine = "\x7d"

/-- The marker-balance scan the claim speaks about: a depth counter that
increments on an open marker, decrements on a close marker and dies on a
close with no matching open. -/
def balanceStep (d : Option Nat) (l : String) : Option Nat :=
  match d with
  | none => none
  | some n =>
    if openLine l then some (n + 1)
    else if closeLine l then
      match n with
      | 0 => none
      | m + 1 => some m
    else some n

theorem foldl_balance_none (rest : List String) :
    rest.foldl balanceStep none = none := by
  induction rest with
  | nil => rfl
  | cons l r ih =>
      rw [List.foldl_cons]
      exact ih

theorem checkLine_open (i : Nat) (l : String) (st : CSState) (h : openLine l = true) :
    (checkLine i l st).openBraces.length = st.openBraces.length + 1 := by
  simp only [openLine, Bool.and_eq_true, Bool.not_eq_true'] at h
  obtain ⟨hns, hsome⟩ := h
  simp only [checkLine]
  split
  · rename_i hcond
    rw [hns] at hcond
    cases hcond
  · split
    · rename_i m hm
      simp
    · rename_i hm
      rw [hm] at hsome
      cases hsome

end MG

namespace MG

open Rx

theorem checkLine_close_nil (i : Nat) (l : String) (st : CSState)
    (h : Js.trim l = "\x7d") (hb : st.openBraces = []) :
    (checkLine i l st).openBraces = [] ∧
    (checkLine i l st).result.isValid = false ∧
    ∃ e ∈ (checkLine i l st).result.errors,
      Js.includes e "Unexpected closing brace" = true := by
  simp only [checkLine, h]
  rw [if_neg (by decide)]
  split
  · rename_i m heq
    rw [show Rx.search false reEntityDef ("\x7d" : String).data = none from rfl] at heq
    cases heq
  · split
    · rename_i m heq
      rw [show Rx.search false reMissingNewline ("\x7d" : String).data = none from rfl] at heq
      cases heq
    · split
      · rename_i m heq
        rw [show Rx.search false reMissingNewlineBeforeBrace ("\x7d" : String).data = none
          from rfl] at heq
        cases heq
      · rw [if_pos trivial, hb]
        refine ⟨hb, rfl, ?_⟩
        refine ⟨"Unexpected closing brace on line " ++ Js.num (i + 1) ++
          " with no matching opening brace", ?_, ?_⟩
        · exact List.mem_append.mpr (Or.inr (List.mem_singleton.mpr rfl))
        · exact includes_of_startsWith _ _
            (startsWith_append_left _ _ _ (startsWith_append_left _ _ _ (by decide)))

theorem checkLine_close_cons (i : Nat) (l : String) (st : CSState)
    (h : Js.trim l = "\x7d") (hb : st.openBraces ≠ []) :
    (checkLine i l st).openBraces = st.openBraces.dropLast ∧
    (checkLine i l st).result = st.result := by
  simp only [checkLine, h]
  rw [if_neg (by decide)]
  split
  · rename_i m heq
    rw [show Rx.search false reEntityDef ("\x7d" : String).data = none from rfl] at heq
    cases heq
  · split
    · rename_i m heq
      rw [show Rx.search false reMissingNewline ("\x7d" : String).data = none from rfl] at heq
      cases heq
    · split
      · rename_i m heq
        rw [show Rx.search false reMissingNewlineBeforeBrace ("\x7d" : String).data = none
          from rfl] at heq
        cases heq
      · rw [if_pos trivial]
        cases hsb : st.openBraces with
        | nil => exact absurd hsb hb
        | cons b bs => exact ⟨rfl, rfl⟩

theorem checkLine_other (i : Nat) (l : String) (st : CSState)
    (ho : openLine l = false) (hc : ¬ Js.trim l = "\x7d") :
    (checkLine i l st).openBraces = st.openBraces := by
  simp only [checkLine]
  repeat' split
  all_goals try rfl
  all_goals simp_all [openLine]

end MG

namespace MG

open Rx

theorem checkLinesGo_balance :
    ∀ (lines : List String) (i : Nat) (st : CSState),
      (lines.foldl balanceStep (some st.openBraces.length) = none →
        (checkLinesGo i lines st).result.isValid = false ∧
        ∃ e ∈ (checkLinesGo i lines st).result.errors,
          Js.includes e "Unexpected closing brace" = true) ∧
      (∀ d, lines.foldl balanceStep (some st.openBraces.length) = some d →
        (checkLinesGo i lines st).openBraces.length = d) := by
  intro lines
  induction lines with
  | nil =>
      intro i st
      constructor
      · intro h
        cases h
      · intro d h
        injection h with h
  | cons l rest ih =>
      intro i st
      simp only [checkLinesGo, List.foldl_cons]
      by_cases ho : openLine l = true
      · have hop := checkLine_open i l st ho
        have hbs : balanceStep (some st.openBraces.length) l =
            some (st.openBraces.length + 1) := by
          simp [balanceStep, ho]
        rw [hbs]
        have hrec := ih (i + 1) (checkLine i l st)
        rw [hop] at hrec
        exact hrec
      · rw [Bool.not_eq_true] at ho
        by_cases hcl : Js.trim l = "\x7d"
        · have hbs : balanceStep (some st.openBraces.length) l =
              (match st.openBraces.length with | 0 => none | m + 1 => some m) := by
            simp [balanceStep, ho, closeLine, hcl]
          cases hn : st.openBraces.length with
          | zero =>
              have hb0 : st.openBraces = [] := List.length_eq_zero.mp hn
              have hnil := checkLine_close_nil i l st hcl hb0
              have hpres := checkLinesGo_errPres rest (i + 1) (checkLine i l st)
              rw [hn] at hbs
              rw [hbs, foldl_balance_none]
              constructor
              · intro _
                refine ⟨hpres.1 hnil.2.1, ?_⟩
                obtain ⟨e, he, hinc⟩ := hnil.2.2
                exact ⟨e, hpres.2 e he, hinc⟩
              · intro d hd
                cases hd
          | succ m =>
              have hbne : st.openBraces ≠ [] := by
                intro habs
                rw [habs] at hn
                cases hn
              have hcons := checkLine_close_cons i l st hcl hbne
              rw [hn] at hbs
              rw [hbs]
              have hlen : (checkLine i l st).openBraces.length = m := by
                rw [hcons.1, List.length_dropLast, hn]
                omega
              have hrec := ih (i + 1) (checkLine i l st)
              rw [hlen] at hrec
              exact hrec
        · have hoth := checkLine_other i l st ho hcl
          have hbs : balanceStep (some st.openBraces.length) l =
              some st.openBraces.length := by
            simp [balanceStep, ho, closeLine, hcl]
          rw [hbs]
          have hrec := ih (i + 1) (checkLine i l st)
          rw [hoth] at hrec
          exact hrec

end MG

namespace MG

open Rx

theorem foldl_errPres_cs {α : Type} (g : CSState → α → CSState)
    (hg : ∀ st a, ErrPres st.result (g st a).result) :
    ∀ (l : List α) (st : CSState), ErrPres st.result (l.foldl g st).result := by
  intro l
  induction l with
  | nil => intro st; exact errPres_refl _
  | cons a as ih =>
      intro st
      exact errPres_trans (hg st a) (ih (g st a))

set_option maxHeartbeats 1600000 in
theorem unclosed_foldl (braces : List OpenBrace) (st : CSState) (hne : braces ≠ []) :
    (braces.foldl (fun st brace => addError st ("Unclosed entity definition for \x27" ++
        brace.entity ++ "\x27 started on line " ++ Js.num brace.line)) st).result.isValid =
      false ∧
    ∃ e ∈ (braces.foldl (fun st brace => addError st ("Unclosed entity definition for \x27" ++
        brace.entity ++ "\x27 started on line " ++ Js.num brace.line)) st).result.errors,
      Js.includes e "Unclosed entity definition" = true := by
  cases braces with
  | nil => exact absurd rfl hne
  | cons b bs =>
      rw [List.foldl_cons]
      have hpres : ErrPres (addError st ("Unclosed entity definition for \x27" ++ b.entity ++
          "\x27 started on line " ++ Js.num b.line)).result
          ((bs.foldl (fun st brace => addError st ("Unclosed entity definition for \x27" ++
            brace.entity ++ "\x27 started on line " ++ Js.num brace.line))
            (addError st ("Unclosed entity definition for \x27" ++ b.entity ++
              "\x27 started on line " ++ Js.num b.line)))).result :=
        foldl_errPres_cs _ (fun st a => errPres_addError st _) bs _
      constructor
      · exact hpres.1 rfl
      · refine ⟨"Unclosed entity definition for \x27" ++ b.entity ++
          "\x27 started on line " ++ Js.num b.line, ?_, ?_⟩
        · exact hpres.2 _ (List.mem_append.mpr (Or.inr (List.mem_singleton.mpr rfl)))
        · exact includes_of_startsWith _ _
            (startsWith_append_left _ _ _ (startsWith_append_left _ _ _
              (startsWith_append_left _ _ _ (by decide))))

set_option maxHeartbeats 1600000 in
theorem checkStructural_unbalanced (s : String) (r : VResult)
    (h : (Js.splitChar '\n' s).foldl balanceStep (some 0) ≠ some 0) :
    (checkStructural s r).isValid = false ∧
    ∃ e ∈ (checkStructural s r).errors,
      (Js.includes e "Unclosed entity definition" = true ∨
       Js.includes e "Unexpected closing brace" = true) := by
  have hdup : ∀ (st : CSState) (p : String × Nat),
      ErrPres st.result ((if p.2 > 1 then addError st ("Duplicate entity definition: \x27" ++
        p.1 ++ "\x27 defined " ++ Js.num p.2 ++ " times") else st)).result := by
    intro st p
    split
    · exact errPres_addError _ _
    · exact errPres_refl _
  simp only [checkStructural]
  set st1 : CSState := checkLinesGo 0 (Js.splitChar '\n' s)
    { result := r, openBraces := [], entities := [], currentEntity := none } with hst1
  set st2 : CSState := st1.openBraces.foldl
    (fun st brace =>
      addError st ("Unclosed entity definition for \x27" ++ brace.entity ++
        "\x27 started on line " ++ Js.num brace.line)) st1 with hst2
  have hp1 : ErrPres st1.result st2.result := by
    rw [hst2]
    exact foldl_errPres_cs _ (fun st a => errPres_addError st _) st1.openBraces st1
  have hp2 : ErrPres st2.result (((countsIn st2.entities).foldl
      (fun st p => if p.2 > 1 then addError st
        ("Duplicate entity definition: \x27" ++ p.1 ++ "\x27 defined " ++
          Js.num p.2 ++ " times") else st) st2)).result :=
    foldl_errPres_cs _ hdup _ st2
  cases hf : (Js.splitChar '\n' s).foldl balanceStep (some 0) with
  | none =>
      have hb := (checkLinesGo_balance (Js.splitChar '\n' s) 0
        { result := r, openBraces := [], entities := [], currentEntity := none }).1 hf
      rw [← hst1] at hb
      obtain ⟨e, he, hinc⟩ := hb.2
      exact ⟨hp2.1 (hp1.1 hb.1), ⟨e, hp2.2 e (hp1.2 e he), Or.inr hinc⟩⟩
  | some k =>
      have hk : k ≠ 0 := by
        intro habs
        rw [habs] at hf
        exact h hf
      have hlen := (checkLinesGo_balance (Js.splitChar '\n' s) 0
        { result := r, openBraces := [], entities := [], currentEntity := none }).2 k hf
      rw [← hst1] at hlen
      have hne : st1.openBraces ≠ [] := by
        intro habs
        rw [habs] at hlen
        exact hk hlen.symm
      have hunc := unclosed_foldl st1.openBraces st1 hne
      rw [← hst2] at hunc
      obtain ⟨e, he, hinc⟩ := hunc.2
      exact ⟨hp2.1 hunc.1, ⟨e, hp2.2 e he, Or.inl hinc⟩⟩

end MG

namespace MG

open Rx

theorem errPres_warn (r : VResult) (c : Prop) [Decidable c] (msg : String) :
    ErrPres r (if c then { isValid := false, errors := r.errors ++ [msg] } else r) := by
  split
  · exact ⟨fun _ => rfl, fun e he => List.mem_append.mpr (Or.inl he)⟩
  · exact errPres_refl r

theorem relRefStep_errPres (ns : List String) (r : VResult) (rm : String) :
    ErrPres r (relRefStep ns r rm) := by
  simp only [relRefStep]
  exact errPres_trans (errPres_warn _ _ _) (errPres_warn _ _ _)

theorem foldl_relRef_errPres (ns : List String) :
    ∀ (l : List String) (r : VResult), ErrPres r (l.foldl (relRefStep ns) r) := by
  intro l
  induction l with
  | nil => intro r; exact errPres_refl r
  | cons a as ih =>
      intro r
      exact errPres_trans (relRefStep_errPres ns r a) (ih (relRefStep ns r a))

theorem validateMermaid_errPres (s : String)
    (h1 : s.isEmpty = false) (h2 : s ≠ "erDiagram\n") :
    ErrPres (checkStructural (autoFormatMermaid s) { isValid := true, errors := [] })
      (validateMermaid s) := by
  simp only [validateMermaid]
  rw [if_neg (by simp [h1, h2])]
  exact errPres_trans (errPres_warn _ _ _)
    (errPres_trans (errPres_warn _ _ _) (foldl_relRef_errPres _ _ _))

end MG

/-- C6 (amended): any markup whose auto-formatted text leaves the validator\x27s
canonical block markers unbalanced — a non-comment trimmed line matching
`name \x7b` opens a block, a trimmed line that is exactly `\x7d` closes one — is
reported with `isValid = false` together with at least one error naming the
unmatched marker (an `Unclosed entity definition ...` or an
`Unexpected closing brace ...` message).  The empty input and the bare
`erDiagram` header are excluded: they take the early-returned empty-diagram
error instead.  A brace in any other textual form is not a block marker. -/
theorem C6_unbalanced_markers_reported (s : String)
    (h1 : s.isEmpty = false) (h2 : s ≠ "erDiagram\n")
    (hub : (Js.splitChar '\n' (MG.autoFormatMermaid s)).foldl MG.balanceStep (some 0) ≠
      some 0) :
    (MG.validateMermaid s).isValid = false ∧
    ∃ e ∈ (MG.validateMermaid s).errors,
      (Js.includes e "Unclosed entity definition" = true ∨
       Js.includes e "Unexpected closing brace" = true) := by
  have hpre := MG.validateMermaid_errPres s h1 h2
  have hcs := MG.checkStructural_unbalanced (MG.autoFormatMermaid s)
    { isValid := true, errors := [] } hub
  obtain ⟨e, he, hor⟩ := hcs.2
  exact ⟨hpre.1 hcs.1, ⟨e, hpre.2 e he, hor⟩⟩

/-- C6 witness: the markup `foo \x7b` opens a block that is never closed; the
marker scan ends at depth one and the validator reports the diagram invalid
with an unclosed-entity or unexpected-brace message. -/
theorem C6_witness :
    ("foo \x7b" : String).isEmpty = false ∧
    ("foo \x7b" : String) ≠ "erDiagram\n" ∧
    (Js.splitChar '\n' (MG.autoFormatMermaid "foo \x7b")).foldl MG.balanceStep (some 0) ≠
      some 0 ∧
    ((MG.validateMermaid "foo \x7b").isValid = false ∧
     ∃ e ∈ (MG.validateMermaid "foo \x7b").errors,
       (Js.includes e "Unclosed entity definition" = true ∨
        Js.includes e "Unexpected closing brace" = true)) :=
  ⟨by decide, by decide, by decide,
    C6_unbalanced_markers_reported "foo \x7b" (by decide) (by decide) (by decide)⟩
